import Mathlib

/-
Verification development for the background TTS subsystem of
OpenAssistant.ino (Cardputer AI assistant firmware).

The definitions below are a shallow embedding of the C++ source:
  - bytes on the wire and in files are `List Nat` (one Nat per byte);
  - the TLS client is modelled as the finite list of bytes the connection
    will deliver before it closes; a byte is available exactly while the
    list is nonempty, so the liveness timeout of the source never fires in
    the model (data is delivered promptly, then the connection closes);
  - Arduino `String` values handled byte-wise (chunk-size lines) are
    `List Nat`; text handled opaquely (reply text, fingerprints, status
    messages) is `String`;
  - loops whose iteration consumes at least one byte of the connection are
    written with a fuel argument of `length + 1`, which can never run out.
-/

namespace OA

/-- Byte-level whitespace test matching `isspace` (space, \t, \n, \v, \f, \r),
used by Arduino `String::trim`. -/
def isSpaceByte (b : Nat) : Bool :=
  b == 32 || b == 9 || b == 10 || b == 11 || b == 12 || b == 13

/-- Arduino `String::trim()`: strip leading and trailing whitespace. -/
def arduinoTrim (l : List Nat) : List Nat :=
  ((l.dropWhile isSpaceByte).reverse.dropWhile isSpaceByte).reverse

/-- Value of an ASCII hex digit, `none` for any other byte. -/
def hexVal (b : Nat) : Option Nat :=
  if 48 ≤ b ∧ b ≤ 57 then some (b - 48)
  else if 97 ≤ b ∧ b ≤ 102 then some (b - 87)
  else if 65 ≤ b ∧ b ≤ 70 then some (b - 55)
  else none

/-- Fold leading hex digits, stopping at the first non-digit byte
(the `strtol` accumulation loop). -/
def hexDigits : List Nat → Nat → Nat
  | [], acc => acc
  | b :: rest, acc =>
    match hexVal b with
    | some v => hexDigits rest (16 * acc + v)
    | none => acc

/-- Optional `0x` / `0X` marker accepted by `strtol` in base 16. -/
def strip0x : List Nat → List Nat
  | 48 :: b :: rest => if b = 120 ∨ b = 88 then rest else 48 :: b :: rest
  | l => l

/-- C `strtol(s, nullptr, 16)` on a byte string: skip whitespace, optional
sign, optional 0x, then fold hex digits; a string with no leading hex digit
parses as 0. -/
def strtol16 (l : List Nat) : Int :=
  let l := l.dropWhile isSpaceByte
  match l with
  | 45 :: rest => - (hexDigits (strip0x rest) 0 : Int)
  | 43 :: rest => (hexDigits (strip0x rest) 0 : Int)
  | rest => (hexDigits (strip0x rest) 0 : Int)

/-- Loop of `readLineFromClient`: consume bytes until a newline, dropping
carriage returns.  If the connection closes (or, in the source, the timeout
fires) before a newline, succeed exactly when the line is nonempty.
Returns (ok, line, remaining connection bytes). -/
def readLineLoop (line : List Nat) : List Nat → Bool × List Nat × List Nat
  | [] => (!line.isEmpty, line, [])
  | c :: rest =>
    if c = 13 then readLineLoop line rest
    else if c = 10 then (true, line, rest)
    else readLineLoop (line ++ [c]) rest

/-- `readLineFromClient` of OpenAssistant.ino. -/
def readLineFromClient (conn : List Nat) : Bool × List Nat × List Nat :=
  readLineLoop [] conn

/-- Loop of `readFixedBodyToFile`: while the connection is live, read up to
min(remaining, 1024) bytes per iteration, append them to the file and
decrement the remaining counter when the length is known; on connection
close succeed iff the length was unknown or is exhausted.  The fuel is
bounded below by the connection length plus one, and every iteration that
recurses consumes at least one byte, so fuel never runs out. -/
def readFixedBodyLoop (lengthKnown : Bool) :
    Nat → List Nat → Int → List Nat → Bool × List Nat
  | 0, _, _, file => (false, file)
  | _ + 1, [], remaining, file =>
      (!lengthKnown || decide (remaining ≤ 0), file)
  | fuel + 1, c :: cs, remaining, file =>
      if lengthKnown = true ∧ remaining ≤ 0 then (true, file)
      else
        let toRead : Nat := if lengthKnown then (min remaining 1024).toNat else 1024
        let chunk := (c :: cs).take toRead
        readFixedBodyLoop lengthKnown fuel ((c :: cs).drop toRead)
          (remaining - chunk.length) (file ++ chunk)

/-- `readFixedBodyToFile` of OpenAssistant.ino: stream a Content-Length
body to the file.  `contentLength < 0` means the length is unknown.
Returns (success, bytes written to the file). -/
def readFixedBodyToFile (conn : List Nat) (contentLength : Int) : Bool × List Nat :=
  readFixedBodyLoop (decide (0 ≤ contentLength)) (conn.length + 1) conn contentLength []

/-- Loop of `readChunkedBodyToFile`: read a chunk-size line, parse it with
`strtol(_, _, 16)`; a parsed size ≤ 0 is treated as the terminal chunk
(one trailer line is consumed and the reader succeeds); otherwise read
exactly that many payload bytes (failing if the connection closes first),
then discard two bytes (the CRLF after the chunk), failing if they are not
available.  Returns (success, file bytes, remaining connection bytes).
Fuel is connection length + 1; every recursing iteration consumes at least
one connection byte. -/
def readChunkedLoop : Nat → List Nat → List Nat → Bool × List Nat × List Nat
  | 0, conn, file => (false, file, conn)
  | fuel + 1, conn, file =>
    let r := readLineFromClient conn
    if r.1 = false then (false, file, r.2.2)
    else
      let line := arduinoTrim r.2.1
      let conn1 := r.2.2
      if line.length = 0 then readChunkedLoop fuel conn1 file
      else
        let chunkSize := strtol16 line
        if chunkSize ≤ 0 then
          let t := readLineFromClient conn1
          (true, file, t.2.2)
        else
          let csize := chunkSize.toNat
          if conn1.length < csize then (false, file ++ conn1, [])
          else
            let file2 := file ++ conn1.take csize
            match conn1.drop csize with
            | [] => (false, file2, [])
            | [_] => (false, file2, [])
            | _ :: _ :: conn3 => readChunkedLoop fuel conn3 file2

/-- `readChunkedBodyToFile` of OpenAssistant.ino. -/
def readChunkedBodyToFile (conn : List Nat) : Bool × List Nat × List Nat :=
  readChunkedLoop (conn.length + 1) conn []

/-- The fixed cache artifact path `TTS_CACHE_PATH`. -/
def ttsCachePath : String := "/tts_cache/last.pcm"

/-- Outcome of the network and storage collaborators for one call to
`downloadTtsAudio`: which external steps succeed, and the HTTP response
(status code, framing, body bytes as delivered on the wire). -/
structure NetEnv where
  apiKey : Bool
  mountOk : Bool
  dirOk : Bool
  openOk : Bool
  connectOk : Bool
  headersOk : Bool
  statusCode : Nat
  chunked : Bool
  contentLength : Int
  body : List Nat
  deriving DecidableEq

/-- Result of `downloadTtsAudio`: the return value, the resulting content of
the single cache file slot at `TTS_CACHE_PATH` (`none` when absent), and the
last status message it posted (`none` when it posted nothing). -/
structure DlResult where
  ok : Bool
  file : Option (List Nat)
  status : Option String
  deriving DecidableEq

/-- `downloadTtsAudio` of OpenAssistant.ino, as its effect on the cache file
slot.  Mirrors the source order: key/text guards, SD mount and directory,
remove-then-open of the cache file (an open failure leaves the file removed),
TLS connect (a failure leaves the freshly created empty file behind), header
read, status check (non-200 removes the file), then the body readers; a body
read failure removes the partial file, success keeps it. -/
def downloadTtsAudio (net : NetEnv) (text : String) (cacheFile : Option (List Nat)) :
    DlResult :=
  if net.apiKey = false then ⟨false, cacheFile, some "Voice key missing"⟩
  else if text = "" then ⟨false, cacheFile, some "No voice text"⟩
  else if net.mountOk = false then ⟨false, cacheFile, some "Voice storage error"⟩
  else if net.dirOk = false then ⟨false, cacheFile, some "Voice storage error"⟩
  else if net.openOk = false then ⟨false, none, some "Voice storage error"⟩
  else if net.connectOk = false then ⟨false, some [], some "Voice connect fail"⟩
  else if net.headersOk = false then ⟨false, some [], some "Voice timeout"⟩
  else if net.statusCode ≠ 200 then
    ⟨false, none, some ("Voice HTTP " ++ toString net.statusCode)⟩
  else
    let r : Bool × List Nat :=
      if net.chunked then
        ((readChunkedBodyToFile net.body).1, (readChunkedBodyToFile net.body).2.1)
      else readFixedBodyToFile net.body net.contentLength
    if r.1 = true then ⟨true, some r.2, none⟩
    else ⟨false, none, some "Voice read error"⟩

/-- One iteration of the playback loop of `playTtsFromSD`, as seen from the
worker: the pause flag value read this iteration, the values of the volatile
`ttsCancelRequested` at its three read sites in one iteration (loop top,
inside the buffer-fill block, before the final delay; the flag is only ever
set by the UI during a job, so over time these are monotone), how many queued
buffers the hardware finished since the previous iteration, and whether a
`playRaw` submission this iteration is accepted. -/
structure PTick where
  pauseReq : Bool
  cancelA : Bool
  cancelB : Bool
  cancelC : Bool
  consume : Nat
  queueOk : Bool
  deriving DecidableEq

/-- Why `playTtsFromSD` returned.  `spin` is a model artifact: the supplied
tick trace ended while the loop was still running. -/
inductive PlayExit where
  | storageErr | fileErr | fileEmpty | seekErr | doneEarly | memErr
  | cancelled | cancelMidRead | queueErr | pausedDrain | natural | spin
  deriving DecidableEq

/-- State of the playback loop: the file cursor (`f.position()`), the
`outResumeOffset` variable, the byte contents of the buffers currently
queued on the hardware (oldest first; `recordedInFlight` is their count),
the bytes the hardware has fully played out, and the `firstChunk`,
`fileDone`, `pausePending` flags of the source. -/
structure PlaySt where
  pos : Nat
  resume : Nat
  inFlight : List (List Nat)
  delivered : List Nat
  firstChunk : Bool
  fileDone : Bool
  pausePending : Bool
  deriving DecidableEq

/-- One iteration of the `while (true)` playback loop of `playTtsFromSD`
(source order: latch pause request, cancel check, reclaim buffers the
hardware finished, pause drain, buffer fill and submit, natural-completion
check, final cancel check).  `Sum.inl` is a loop exit, `Sum.inr` continues
with the next iteration.  The exits that the source reaches with `break`
set `outResumeOffset` to `f.position()` after the loop; the early `return`
on a rejected submission leaves it at its last assigned value. -/
def playStepCore (file : List Nat) (cb : Nat) (t : PTick) (st : PlaySt) :
    (PlayExit × PlaySt) ⊕ PlaySt :=
  if t.cancelA = true then Sum.inl (.cancelled, { st with resume := st.pos })
  else
    let st := { st with
      delivered := st.delivered ++ (st.inFlight.take t.consume).flatten,
      inFlight := st.inFlight.drop t.consume }
    if st.pausePending = true then
      if st.inFlight.length = 0 then Sum.inl (.pausedDrain, { st with resume := st.pos })
      else Sum.inr st
    else if st.fileDone = false ∧ st.inFlight.length < 3 then
      let chunk := (file.drop st.pos).take cb
      if chunk.length = 0 then
        let st := { st with fileDone := true }
        if t.cancelB = true then Sum.inl (.cancelled, { st with resume := st.pos })
        else if st.inFlight.length = 0 then
          Sum.inl (.natural, { st with resume := st.pos })
        else if t.cancelC = true then Sum.inl (.cancelled, { st with resume := st.pos })
        else Sum.inr st
      else
        let st := { st with pos := st.pos + chunk.length }
        let n2 := if chunk.length % 2 = 1 then chunk.length - 1 else chunk.length
        if n2 = 0 then
          let st := { st with fileDone := true }
          if t.cancelB = true then Sum.inl (.cancelled, { st with resume := st.pos })
          else if st.inFlight.length = 0 then
            Sum.inl (.natural, { st with resume := st.pos })
          else if t.cancelC = true then Sum.inl (.cancelled, { st with resume := st.pos })
          else Sum.inr st
        else if t.cancelB = true then
          Sum.inl (.cancelMidRead, { st with fileDone := true, resume := st.pos })
        else if t.queueOk = false then Sum.inl (.queueErr, st)
        else Sum.inr { st with
          inFlight := st.inFlight ++ [chunk.take n2],
          firstChunk := false,
          resume := st.pos }
    else
      if st.fileDone = true ∧ st.inFlight.length = 0 then
        Sum.inl (.natural, { st with resume := st.pos })
      else if t.cancelC = true then Sum.inl (.cancelled, { st with resume := st.pos })
      else Sum.inr st

/-- One full iteration: latch a pause request, then the core body. -/
def playStep (file : List Nat) (cb : Nat) (t : PTick) (st : PlaySt) :
    (PlayExit × PlaySt) ⊕ PlaySt :=
  playStepCore file cb t
    (if st.pausePending = false ∧ t.pauseReq = true then
      { st with pausePending := true } else st)

/-- The playback loop, driven by the environment tick trace. -/
def playLoop (file : List Nat) (cb : Nat) : List PTick → PlaySt → PlayExit × PlaySt
  | [], st => (.spin, st)
  | t :: ts, st =>
    match playStep file cb t st with
    | Sum.inl r => r
    | Sum.inr st2 => playLoop file cb ts st2

/-- Collaborator outcomes for one call to `playTtsFromSD`: SD mount, seek,
the chunk-buffer size the allocation cascade settles on (`none` when every
candidate size fails), and the per-iteration environment trace. -/
structure PlayEnv where
  mountOk : Bool
  seekOk : Bool
  chunkBytes : Option Nat
  ticks : List PTick
  deriving DecidableEq

/-- `playTtsFromSD` of OpenAssistant.ino.  `fileOpt` is the content of the
file at the requested path (`none` when absent).  Mirrors the source entry
checks: mount, open, empty file, seek for `0 < startOffset < size`, the
early "Voice done" return for `startOffset ≥ size`, buffer allocation, then
the playback loop. -/
def playTtsFromSD (penv : PlayEnv) (fileOpt : Option (List Nat)) (startOffset : Nat) :
    PlayExit × PlaySt :=
  let st0 : PlaySt := ⟨0, startOffset, [], [], true, false, false⟩
  if penv.mountOk = false then (.storageErr, st0)
  else
    match fileOpt with
    | none => (.fileErr, st0)
    | some file =>
      if file.length = 0 then (.fileEmpty, st0)
      else if 0 < startOffset ∧ startOffset < file.length then
        if penv.seekOk = false then (.seekErr, st0)
        else
          match penv.chunkBytes with
          | none => (.memErr, { st0 with pos := startOffset })
          | some cb => playLoop file cb penv.ticks { st0 with pos := startOffset }
      else if file.length ≤ startOffset then (.doneEarly, st0)
      else
        match penv.chunkBytes with
        | none => (.memErr, st0)
        | some cb => playLoop file cb penv.ticks st0

/-- Return value of `playTtsFromSD` per exit (paused and `cancelMidRead`
exits return true, the loop-top cancel exit and all errors return false). -/
def playExitSuccess : PlayExit → Bool
  | .doneEarly => true
  | .cancelMidRead => true
  | .pausedDrain => true
  | .natural => true
  | _ => false

/-- Last status message `playTtsFromSD` itself posts on each exit path. -/
def playExitStatus : PlayExit → Option String
  | .storageErr => some "Voice storage error"
  | .fileErr => some "Voice file error"
  | .fileEmpty => some "Voice file empty"
  | .seekErr => some "Voice seek error"
  | .doneEarly => some "Voice done"
  | .memErr => some "Voice memory error"
  | .queueErr => some "Voice queue error"
  | _ => none

/-- The TTS-related global mutable state of OpenAssistant.ino, together with
the content of the single cache file slot at `TTS_CACHE_PATH` and the status
relay slot (last posted status message). -/
structure TtsState where
  ttsBusy : Bool
  ttsAudioReady : Bool
  ttsCachedText : String
  ttsCachedPath : String
  ttsPaused : Bool
  ttsPauseRequested : Bool
  ttsCancelRequested : Bool
  ttsPrefetchPending : Bool
  ttsPlaybackActive : Bool
  ttsResumeOffset : Nat
  ttsResumePath : String
  isMuted : Bool
  lastAssistantReply : String
  cacheFile : Option (List Nat)
  status : Option String
  deriving DecidableEq

/-- `TtsJobContext` of OpenAssistant.ino, same field order. -/
structure TtsJob where
  sanitizedText : String
  useCache : Bool
  cachedPath : String
  playAfterDownload : Bool
  startOffset : Nat
  deriving DecidableEq

/-- Result of `startTtsTask`: its return value, the updated state, and the
job context handed to a newly created worker task (`none` when no task was
created). -/
structure StartResult where
  ok : Bool
  st : TtsState
  job : Option TtsJob
  deriving DecidableEq

/-- Overwrite-only status slot: a newly posted message wins over the old. -/
def statusOr (new old : Option String) : Option String :=
  match new with
  | some m => some m
  | none => old

/-- `startTtsTask` of OpenAssistant.ino.  `createOk` is whether
`xTaskCreatePinnedToCore` returns `pdPASS`. -/
def startTtsTask (createOk : Bool) (sanitizedText : String) (useCache : Bool)
    (playAfterDownload : Bool) (cachedPath : String) (startOffset : Nat)
    (s : TtsState) : StartResult :=
  if s.ttsBusy = true then ⟨false, s, none⟩
  else if playAfterDownload = false ∧ useCache = true then
    ⟨true, { s with ttsAudioReady := true, status := some "Voice ready" }, none⟩
  else
    let job : TtsJob := ⟨sanitizedText, useCache, cachedPath, playAfterDownload, startOffset⟩
    let s := { s with ttsCancelRequested := false, ttsBusy := true,
                      ttsPaused := false, ttsPauseRequested := false }
    let s :=
      if playAfterDownload = false then { s with ttsResumeOffset := 0, ttsResumePath := "" }
      else if startOffset = 0 then { s with ttsResumeOffset := 0, ttsResumePath := "" }
      else { s with ttsResumeOffset := startOffset, ttsResumePath := cachedPath }
    let s := { s with ttsPlaybackActive := playAfterDownload }
    if createOk = false then
      ⟨false, { s with ttsBusy := false, status := some "Voice error" }, none⟩
    else
      let stMsg :=
        if playAfterDownload = true then
          if 0 < startOffset then "Voice resuming"
          else if useCache = true then "Voice playing" else "Voice loading"
        else "Caching voice"
      ⟨true, { s with status := some stMsg }, some job⟩

/-- `startTtsPrefetch` of OpenAssistant.ino.  `sanitize` abstracts the pure
text-normalisation function `sanitizeForTts` (its exact mapping is irrelevant
to the control flow verified here; every theorem quantifies over it). -/
def startTtsPrefetch (createOk : Bool) (sanitize : String → String) (reply : String)
    (s : TtsState) : TtsState × Option TtsJob :=
  if reply = "" then (s, none)
  else if s.isMuted = true then (s, none)
  else
    let s := { s with ttsPauseRequested := false, ttsPaused := false }
    if s.ttsBusy = true then ({ s with ttsPrefetchPending := true }, none)
    else
      let sanitized := sanitize reply
      let useCache : Bool := s.ttsAudioReady && !(s.ttsCachedPath == "")
                              && (sanitized == s.ttsCachedText)
      let s := { s with ttsPrefetchPending := false }
      let r := startTtsTask createOk sanitized useCache false s.ttsCachedPath 0 s
      (r.st, r.job)

/-- `speakLastAssistantReply` of OpenAssistant.ino. -/
def speakLastAssistantReply (createOk : Bool) (sanitize : String → String)
    (s : TtsState) : TtsState × Option TtsJob :=
  if s.isMuted = true then ({ s with status := some "Muted." }, none)
  else if s.ttsBusy = true then ({ s with status := some "Voice busy" }, none)
  else if s.lastAssistantReply = "" then ({ s with status := some "No voice text" }, none)
  else
    let sanitizedReply := sanitize s.lastAssistantReply
    let useCache : Bool := s.ttsAudioReady && !(s.ttsCachedPath == "")
                             && (sanitizedReply == s.ttsCachedText)
    let startOffset :=
      if s.ttsPaused = true ∧ useCache = true ∧ 0 < s.ttsResumeOffset ∧
         s.ttsResumePath ≠ "" ∧ s.ttsResumePath = s.ttsCachedPath
      then s.ttsResumeOffset else 0
    let r := startTtsTask createOk sanitizedReply useCache true s.ttsCachedPath startOffset s
    (r.st, r.job)

/-- `clearTtsCache` of OpenAssistant.ino: invalidate the cache entry and the
pause/resume cursor; when the SD card mounts, also delete the backing file. -/
def clearTtsCache (mountOk : Bool) (s : TtsState) : TtsState :=
  let s := { s with ttsAudioReady := false, ttsCachedText := "", ttsCachedPath := "",
                    ttsPaused := false, ttsPauseRequested := false,
                    ttsResumeOffset := 0, ttsResumePath := "",
                    ttsPlaybackActive := false }
  if mountOk = true then { s with cacheFile := none } else s

/-- Effect of `readPromptFromKeyboard` of OpenAssistant.ino on the TTS state:
its first statement is `clearTtsCache()`; the remainder of the function
(prompt editing, keyboard scanning, voice recording) does not touch any of
the TTS cache, cursor or worker fields. -/
def readPromptFromKeyboard (mountOk : Bool) (s : TtsState) : TtsState :=
  clearTtsCache mountOk s

/-- Environment of one `ttsWorkerTask` run: collaborator outcomes for its
download and playback phases, plus the values of the volatile
`ttsCancelRequested` flag as observed at the worker's two groups of read
sites (just after the download returns, and after playback / at the final
check).  The flag is cleared by the worker at job start and only ever set
by the UI during the job, so over time the observations are monotone. -/
structure WorkerEnv where
  net : NetEnv
  penv : PlayEnv
  cancelDl : Bool
  cancelEnd : Bool
  deriving DecidableEq

/-- Result of the worker's download phase: updated state, the `audioPath`
local, `readyToPlay`, and whether `downloadTtsAudio` was invoked. -/
structure DlPhase where
  st : TtsState
  audioPath : String
  readyToPlay : Bool
  dlInvoked : Bool

/-- The status `ttsWorkerTask` posts on entry. -/
def workerInitialStatus (job : TtsJob) : String :=
  if job.useCache = true then
    if job.playAfterDownload = true then "Voice playing" else "Voice ready"
  else
    if job.playAfterDownload = true then "Voice loading" else "Caching voice"

/-- Download phase of `ttsWorkerTask` (source lines: the `!ctx->useCache`
block): invoke `downloadTtsAudio`; on success without an observed cancel,
publish the cache entry (fingerprint, path, ready); on failure or with a
cancel observed, leave the entry untouched and post "Voice error" only when
no cancel was observed. -/
def workerDownloadPhase (wenv : WorkerEnv) (job : TtsJob) (s : TtsState) : DlPhase :=
  if job.useCache = true then ⟨s, job.cachedPath, true, false⟩
  else
    let r := downloadTtsAudio wenv.net job.sanitizedText s.cacheFile
    let s := { s with cacheFile := r.file, status := statusOr r.status s.status }
    if r.ok = false ∨ wenv.cancelDl = true then
      ⟨if wenv.cancelDl = false then { s with status := some "Voice error" } else s,
       job.cachedPath, false, true⟩
    else
      ⟨{ s with ttsCachedText := job.sanitizedText, ttsCachedPath := ttsCachePath,
                ttsAudioReady := true },
       ttsCachePath, true, true⟩

/-- Playback phase of `ttsWorkerTask`: when ready and no cancel observed,
either run `playTtsFromSD` (recording the pause cursor on a paused exit,
else clearing it and posting done/error when no cancel is observed), or, for
a download-only job, clear the cursor and post "Voice ready". -/
def workerPlayPhase (wenv : WorkerEnv) (job : TtsJob) (audioPath : String)
    (readyToPlay : Bool) (s : TtsState) : TtsState :=
  if readyToPlay = true ∧ wenv.cancelDl = false then
    if job.playAfterDownload = true then
      let fileOpt := if audioPath = ttsCachePath then s.cacheFile else none
      let pr := playTtsFromSD wenv.penv fileOpt job.startOffset
      let s := { s with status := statusOr (playExitStatus pr.1) s.status }
      if pr.1 = .pausedDrain then
        { s with ttsPaused := true, ttsResumeOffset := pr.2.resume,
                 ttsResumePath := audioPath, status := some "Voice paused",
                 ttsPlaybackActive := false }
      else
        let s := { s with ttsPaused := false, ttsResumeOffset := 0, ttsResumePath := "" }
        if playExitSuccess pr.1 = false ∧ wenv.cancelEnd = false then
          { s with status := some "Voice error" }
        else if wenv.cancelEnd = false then { s with status := some "Voice done" }
        else s
    else
      { s with ttsPaused := false, ttsResumeOffset := 0, ttsResumePath := "",
               ttsPlaybackActive := false, status := some "Voice ready" }
  else s

/-- Result of one `ttsWorkerTask` run: final state, whether
`downloadTtsAudio` was invoked, and the job launched by the chained
deferred-prefetch call at exit (`none` when no new task was created). -/
structure WorkerOut where
  st : TtsState
  dlInvoked : Bool
  chained : Option TtsJob

/-- Exit sequence of `ttsWorkerTask` (source lines after the playback
phase): post "Voice cancelled" and reset the cursor when a cancel was
observed at the final check, clear the worker flags, and re-trigger
`startTtsPrefetch` for the latest assistant reply when a prefetch was
deferred while busy. -/
def ttsWorkerFinish (wenv : WorkerEnv) (createOk : Bool) (sanitize : String → String)
    (dlInvoked : Bool) (s2 : TtsState) : WorkerOut :=
  let s3 := if wenv.cancelEnd = true then
              { s2 with status := some "Voice cancelled", ttsPaused := false,
                        ttsResumeOffset := 0, ttsResumePath := "" }
            else s2
  let s4 := { s3 with ttsBusy := false, ttsCancelRequested := false,
                      ttsPauseRequested := false, ttsPlaybackActive := false }
  if s4.ttsPrefetchPending = true then
    let s5 := { s4 with ttsPrefetchPending := false }
    let p := startTtsPrefetch createOk sanitize s5.lastAssistantReply s5
    ⟨p.1, dlInvoked, p.2⟩
  else ⟨s4, dlInvoked, none⟩

/-- Worker entry (source lines at the top of `ttsWorkerTask`): clear the
cancel flag and post the initial status. -/
def workerStart (job : TtsJob) (s : TtsState) : TtsState :=
  { s with ttsCancelRequested := false, status := some (workerInitialStatus job) }

/-- `ttsWorkerTask` of OpenAssistant.ino: entry, download phase, playback
phase, then the exit sequence. -/
def ttsWorkerTask (wenv : WorkerEnv) (createOk : Bool) (sanitize : String → String)
    (job : TtsJob) (s : TtsState) : WorkerOut :=
  let d := workerDownloadPhase wenv job (workerStart job s)
  ttsWorkerFinish wenv createOk sanitize d.dlInvoked
    (workerPlayPhase wenv job d.audioPath d.readyToPlay d.st)

/-- A quiescent TTS state: idle worker, empty cache, nothing pending. -/
def baseState : TtsState :=
  ⟨false, false, "", "", false, false, false, false, false, 0, "", false, "", none, none⟩

/-- Muted device with a busy Worker and a pending reply (C1 scenario). -/
def c1CexState : TtsState :=
  { baseState with ttsBusy := true, isMuted := true, lastAssistantReply := "hi" }

/-- Busy Worker, not muted (C1 scenario). -/
def c1BusyState : TtsState :=
  { baseState with ttsBusy := true }

/-- Network environment delivering a 200 fixed-length 4-byte body. -/
def c2Net : NetEnv :=
  ⟨true, true, true, true, true, true, 200, false, 4, [1, 2, 3, 4]⟩

/-- Worker environment: the download succeeds but a cancel was requested
while it ran (observed at the post-download check and onwards). -/
def c2WenvCancel : WorkerEnv :=
  ⟨c2Net, ⟨true, true, some 16384, []⟩, true, true⟩

/-- Worker environment: same download, no cancel observed anywhere. -/
def c2WenvClean : WorkerEnv :=
  ⟨c2Net, ⟨true, true, some 16384, []⟩, false, false⟩

/-- A download-then-play job for the sanitized text "hi". -/
def c2Job : TtsJob := ⟨"hi", false, "", true, 0⟩

/-- A play-from-cache job at the cache path. -/
def c2CacheJob : TtsJob := ⟨"hi", true, ttsCachePath, true, 0⟩

/-- State as `startTtsTask` leaves it when the Worker launches (C2). -/
def c2PreState : TtsState :=
  { baseState with ttsBusy := true, lastAssistantReply := "hi" }

/-- Busy Worker with playback paused — a pause request was committed while
a new job ran (C3 scenario). -/
def c3CexState : TtsState :=
  { baseState with ttsBusy := true, ttsPaused := true, lastAssistantReply := "old" }

/-- Busy Worker, not muted, with a pending reply (C3 witness scenario). -/
def c3WitState : TtsState :=
  { baseState with ttsBusy := true, lastAssistantReply := "hello" }

/-- Neutral worker environment for the C3 witness run. -/
def c3Wenv : WorkerEnv :=
  ⟨⟨true, true, true, true, true, true, 200, false, 2, [5, 6]⟩,
   ⟨true, true, some 16384, []⟩, false, false⟩

/-- The play-from-cache job the Worker is finishing in the C3 witness. -/
def c3Job : TtsJob := ⟨"hello", true, "", true, 0⟩

/-- Busy Worker whose cache entry is ready and matches the text "Hi"
(C4 counterexample scenario). -/
def c4CexState : TtsState :=
  { baseState with ttsBusy := true, ttsAudioReady := true, ttsCachedText := "Hi",
                   ttsCachedPath := ttsCachePath, lastAssistantReply := "Hi" }

/-- Idle Worker whose cache entry is ready and matches the text "Hi"
(C4 witness scenario). -/
def c4WitState : TtsState :=
  { baseState with ttsAudioReady := true, ttsCachedText := "Hi",
                   ttsCachedPath := ttsCachePath, lastAssistantReply := "Hi",
                   cacheFile := some [1, 2] }

/-- Paused mid-clip with a matching ready cache entry (C5 scenario). -/
def c5WitState : TtsState :=
  { baseState with ttsAudioReady := true, ttsCachedText := "Hi",
                   ttsCachedPath := ttsCachePath, ttsPaused := true,
                   ttsResumeOffset := 64, ttsResumePath := ttsCachePath,
                   lastAssistantReply := "Hi" }

/-- An idle playback-environment tick: no requests, nothing consumed. -/
def quietTick : PTick := ⟨false, false, false, false, 0, true⟩

/-- Player environment that plays a two-byte file to natural completion:
one tick submits the single chunk, the next sees it consumed (C6). -/
def c6WitPenv : PlayEnv :=
  ⟨true, true, some 16384, [quietTick, { quietTick with consume := 1 }]⟩

/-- Worker environment with no cancellation and a trivial play trace (C4). -/
def c4Wenv : WorkerEnv :=
  ⟨⟨true, true, true, true, true, true, 200, false, 4, [1, 2, 3, 4]⟩,
   ⟨true, true, some 16384, []⟩, false, false⟩

/-- A state with every TTS field populated (C10 scenario). -/
def c10WitState : TtsState :=
  { baseState with ttsBusy := true, ttsAudioReady := true, ttsCachedText := "T",
                   ttsCachedPath := ttsCachePath, ttsPaused := true,
                   ttsPauseRequested := true, ttsResumeOffset := 7,
                   ttsResumePath := ttsCachePath, ttsPlaybackActive := true,
                   lastAssistantReply := "T", cacheFile := some [1, 2],
                   status := some "Voice paused" }

/-- All bytes the playback loop has taken responsibility for: those already
played out by the hardware followed by those still queued on it. -/
def playCombined (delivered : List Nat) (inFlight : List (List Nat)) : List Nat :=
  delivered ++ inFlight.flatten

/-- Loop invariant of the playback loop of `playTtsFromSD`, over the loop
state fields (cursor, delivered bytes, queued buffers) for a session over
`file` starting at byte `start`: the cursor stays between `start` and the
file size; the bytes delivered or in flight are exactly the contiguous
slice of the file from `start` up to the cursor, except that at most one
trailing byte (a dropped odd byte, only possible once the cursor has hit
end of file) was read but never queued; delivered byte counts and every
queued buffer are sample-aligned (even). -/
def PlayInv (file : List Nat) (start pos : Nat) (delivered : List Nat)
    (inFlight : List (List Nat)) : Prop :=
  start ≤ pos ∧ pos ≤ file.length ∧
  start + (playCombined delivered inFlight).length ≤ pos ∧
  pos ≤ start + (playCombined delivered inFlight).length + 1 ∧
  (start + (playCombined delivered inFlight).length < pos → pos = file.length) ∧
  playCombined delivered inFlight
      = (file.drop start).take (playCombined delivered inFlight).length ∧
  delivered.length % 2 = 0 ∧
  ∀ b ∈ inFlight, b.length % 2 = 0

/-- The effective starting position of a `playTtsFromSD` call: the source
seeks to `startOffset` only when `0 < startOffset < size`; otherwise the
cursor stays at 0 (the `startOffset ≥ size` case returns before the loop). -/
def playStart (file : List Nat) (startOffset : Nat) : Nat :=
  if 0 < startOffset ∧ startOffset < file.length then startOffset else 0

/-- Post-condition of one playback-loop iteration: a continuing iteration
preserves the invariant, and an exit by pause drain or natural completion
preserves it, drains the hardware queue, and reports the cursor as the
resume offset. -/
def playPost (file : List Nat) (start : Nat) :
    (PlayExit × PlaySt) ⊕ PlaySt → Prop
  | Sum.inr st2 => PlayInv file start st2.pos st2.delivered st2.inFlight
  | Sum.inl (ex, st2) =>
      (ex = PlayExit.pausedDrain ∨ ex = PlayExit.natural) →
        PlayInv file start st2.pos st2.delivered st2.inFlight ∧
        st2.resume = st2.pos ∧ st2.inFlight = []

/- ------------------------------------------------------------------ -/
/- Theorems.                                                          -/
/- ------------------------------------------------------------------ -/

theorem readLineLoop_no_crlf (L : List Nat) (rest acc : List Nat)
    (h : ∀ b ∈ L, b ≠ 13 ∧ b ≠ 10) :
    readLineLoop acc (L ++ 13 :: 10 :: rest) = (true, acc ++ L, rest) := by
  induction L generalizing acc with
  | nil => simp [readLineLoop]
  | cons b L ih =>
    have hb := h b (by simp)
    simp only [List.cons_append, readLineLoop, List.append_eq]
    rw [if_neg hb.1, if_neg hb.2, ih (acc ++ [b]) (fun x hx => h x (by simp [hx]))]
    simp

theorem readFixedBodyLoop_unknown (fuel : Nat) (conn : List Nat) (rem : Int)
    (file : List Nat) (h : conn.length < fuel) :
    readFixedBodyLoop false fuel conn rem file = (true, file ++ conn) := by
  induction fuel generalizing conn rem file with
  | zero => exact absurd h (by omega)
  | succ fuel ih =>
    match conn with
    | [] => simp [readFixedBodyLoop]
    | c :: cs =>
      have hlen : ((c :: cs).drop 1024).length < fuel := by
        simp only [List.length_drop, List.length_cons] at h ⊢
        omega
      calc readFixedBodyLoop false (fuel + 1) (c :: cs) rem file
          = readFixedBodyLoop false fuel ((c :: cs).drop 1024)
              (rem - ((c :: cs).take 1024).length) (file ++ (c :: cs).take 1024) := by
            simp [readFixedBodyLoop]
        _ = (true, (file ++ (c :: cs).take 1024) ++ (c :: cs).drop 1024) :=
            ih _ _ _ hlen
        _ = (true, file ++ (c :: cs)) := by
            rw [List.append_assoc, List.take_append_drop]

theorem readFixedBodyLoop_known (fuel : Nat) (conn : List Nat) (rem : Int)
    (file : List Nat) (h : conn.length < fuel) (hrem : 0 ≤ rem) :
    readFixedBodyLoop true fuel conn rem file
      = (decide (rem ≤ (conn.length : Int)), file ++ conn.take rem.toNat) := by
  induction fuel generalizing conn rem file with
  | zero => exact absurd h (by omega)
  | succ fuel ih =>
    match conn with
    | [] => simp [readFixedBodyLoop]
    | c :: cs =>
      by_cases h0 : rem ≤ 0
      · have hz : rem = 0 := le_antisymm h0 hrem
        subst hz
        simp [readFixedBodyLoop]
        omega
      · push_neg at h0
        obtain ⟨T, hT1, hT2, hT3⟩ :
            ∃ T : Nat, 1 ≤ T ∧ (T : Int) ≤ rem ∧
              readFixedBodyLoop true (fuel + 1) (c :: cs) rem file
                = readFixedBodyLoop true fuel ((c :: cs).drop T)
                    (rem - ((c :: cs).take T).length) (file ++ (c :: cs).take T) := by
          refine ⟨(min rem 1024).toNat, by omega, by omega, ?_⟩
          rw [readFixedBodyLoop, if_neg (by omega)]
          rfl
        have hck : ((c :: cs).take T).length = min T (cs.length + 1) := by
          simp [List.length_take]
        have hlen2 : ((c :: cs).drop T).length < fuel := by
          simp only [List.length_drop, List.length_cons] at h ⊢
          omega
        have hrem2 : 0 ≤ rem - ((c :: cs).take T).length := by
          rw [hck]
          omega
        rw [hT3, ih _ _ _ hlen2 hrem2]
        refine Prod.ext ?_ ?_
        · simp only [List.length_drop, List.length_cons, hck]
          rw [decide_eq_decide]
          omega
        · simp only []
          rw [List.append_assoc]
          congr 1
          by_cases hle : T ≤ cs.length + 1
          · have h1 : ((c :: cs).take T).length = T := by
              rw [hck]; omega
            have h2 : (rem - ((c :: cs).take T).length).toNat
                = rem.toNat - T := by rw [h1]; omega
            rw [h2, ← List.take_add]
            congr 1
            omega
          · push_neg at hle
            have h1 : (c :: cs).take T = c :: cs :=
              List.take_of_length_le (by simp; omega)
            have h2 : (c :: cs).drop T = [] :=
              List.drop_eq_nil_of_le (by simp; omega)
            have h3 : (c :: cs).take rem.toNat = c :: cs := by
              refine List.take_of_length_le ?_
              simp only [List.length_cons]
              omega
            rw [h1, h2, h3]
            simp

/-- C8: `readFixedBodyToFile` with a known Content-Length N succeeds exactly
when all N body bytes are delivered before the connection closes, writing the
first N bytes to the file, and with an unknown length (contentLength = -1)
connection close is treated as success. -/
theorem c8_fixed_body_success_iff (conn : List Nat) (N : Nat) :
    ((readFixedBodyToFile conn (N : Int)).1 = true ↔ N ≤ conn.length) ∧
    (readFixedBodyToFile conn (N : Int)).2 = conn.take N ∧
    (readFixedBodyToFile conn (-1 : Int)).1 = true := by
  have hknown : decide ((0 : Int) ≤ (N : Int)) = true := by simp
  have hunknown : decide ((0 : Int) ≤ (-1 : Int)) = false := by decide
  unfold readFixedBodyToFile
  rw [hknown, hunknown]
  rw [readFixedBodyLoop_known _ _ _ _ (by omega) (by positivity),
      readFixedBodyLoop_unknown _ _ _ _ (by omega)]
  refine ⟨?_, ?_, rfl⟩
  · simp
  · simp

/-- C7: on a chunked body with declared chunk sizes [4, 0],
`readChunkedBodyToFile` writes exactly the 4 declared payload bytes,
succeeds after consuming the zero-size terminal chunk and its (empty)
trailer line, and leaves no unread bytes behind. -/
theorem c7_chunked_four_zero (payload : List Nat) (h : payload.length = 4) :
    readChunkedBodyToFile ([52, 13, 10] ++ payload ++ [13, 10, 48, 13, 10, 13, 10])
      = (true, payload, []) := by
  rcases payload with _ | ⟨a, payload⟩
  · simp only [List.length_nil] at h; omega
  rcases payload with _ | ⟨b, payload⟩
  · simp only [List.length_cons, List.length_nil] at h; omega
  rcases payload with _ | ⟨c, payload⟩
  · simp only [List.length_cons, List.length_nil] at h; omega
  rcases payload with _ | ⟨d, payload⟩
  · simp only [List.length_cons, List.length_nil] at h; omega
  rcases payload with _ | ⟨e, payload⟩
  · rfl
  · simp only [List.length_cons, List.length_nil] at h; omega

theorem c7_chunked_four_zero_witness :
    ([9, 9, 9, 9] : List Nat).length = 4 ∧
    readChunkedBodyToFile ([52, 13, 10] ++ [9, 9, 9, 9] ++ [13, 10, 48, 13, 10, 13, 10])
      = (true, [9, 9, 9, 9], []) :=
  ⟨rfl, c7_chunked_four_zero [9, 9, 9, 9] rfl⟩

/-- C9 counterexample: the chunk-size line "zz" is not a valid hexadecimal
number, yet `readChunkedBodyToFile` returns success (strtol parses the line
as 0, which the source treats as the terminal chunk), so the claim that a
malformed chunk-size line makes the body reader return failure is false. -/
theorem c9_cex_malformed_size_line_succeeds :
    (readChunkedBodyToFile [122, 122, 13, 10, 13, 10]).1 = true ∧
    (readChunkedBodyToFile [122, 122, 13, 10, 13, 10]).2.1 = [] :=
  ⟨rfl, rfl⟩

/-- C9 amended: a chunk-size line that `strtol` parses as ≤ 0 — including
any malformed non-hex line — is treated as the terminal chunk: the reader
consumes one trailer line and returns success with no further bytes written,
so the download is not aborted.  The download job is aborted with the
partial cache file removed exactly when the chunked reader itself fails
(e.g. connection close before a size line), in which case `downloadTtsAudio`
returns failure, removes the cache file and posts "Voice read error". -/
theorem c9_amended_malformed_line_is_terminal (L rest : List Nat)
    (hL : ∀ b ∈ L, b ≠ 13 ∧ b ≠ 10)
    (ht : arduinoTrim L ≠ [])
    (hz : strtol16 (arduinoTrim L) ≤ 0) :
    ((readChunkedBodyToFile (L ++ 13 :: 10 :: rest)).1 = true ∧
     (readChunkedBodyToFile (L ++ 13 :: 10 :: rest)).2.1 = []) ∧
    ∀ (net : NetEnv) (text : String) (cache : Option (List Nat)),
      net.apiKey = true → text ≠ "" → net.mountOk = true → net.dirOk = true →
      net.openOk = true → net.connectOk = true → net.headersOk = true →
      net.statusCode = 200 → net.chunked = true →
      (readChunkedBodyToFile net.body).1 = false →
      downloadTtsAudio net text cache = ⟨false, none, some "Voice read error"⟩ := by
  constructor
  · have hline : readLineLoop [] (L ++ 13 :: 10 :: rest) = (true, L, rest) := by
      simpa using readLineLoop_no_crlf L rest [] hL
    unfold readChunkedBodyToFile
    rw [readChunkedLoop]
    simp only [readLineFromClient, hline]
    rw [if_neg (by simp)]
    rw [if_neg (by simpa [List.length_eq_zero] using ht)]
    rw [if_pos hz]
    exact ⟨rfl, rfl⟩
  · intro net text cache hk htxt hm hd ho hc hh hs hch hread
    unfold downloadTtsAudio
    rw [if_neg (by simp [hk]), if_neg (by simpa using htxt), if_neg (by simp [hm]),
        if_neg (by simp [hd]), if_neg (by simp [ho]), if_neg (by simp [hc]),
        if_neg (by simp [hh]), if_neg (by simp [hs])]
    simp only [hch, if_true]
    rw [if_neg (by simp [hread])]

/-- C1 counterexample: with the device muted and the Worker busy, `speak()`
posts "Muted." rather than the "Voice busy" status the claim asserts, so the
claim does not hold for every call made while `ttsBusy` is true. -/
theorem c1_cex_muted_while_busy :
    c1CexState.ttsBusy = true ∧
    (speakLastAssistantReply true id c1CexState).1.status ≠ some "Voice busy" := by
  exact ⟨rfl, by decide⟩

/-- C1 amended: while `ttsBusy` is true, `speak()` never starts a second
Worker task and leaves every field except the status slot unchanged; when
the device is not muted the posted status is "Voice busy", and when it is
muted the posted status is "Muted." instead (likewise with no task started
and no other state change). -/
theorem c1_amended_speak_while_busy (createOk : Bool) (sanitize : String → String)
    (s : TtsState) (hbusy : s.ttsBusy = true) :
    (s.isMuted = false →
      speakLastAssistantReply createOk sanitize s
        = ({ s with status := some "Voice busy" }, none)) ∧
    (s.isMuted = true →
      speakLastAssistantReply createOk sanitize s
        = ({ s with status := some "Muted." }, none)) := by
  constructor
  · intro hm
    unfold speakLastAssistantReply
    rw [if_neg (by simp [hm]), if_pos hbusy]
  · intro hm
    unfold speakLastAssistantReply
    rw [if_pos hm]

theorem c1_amended_witness :
    c1BusyState.ttsBusy = true ∧
    speakLastAssistantReply true id c1BusyState
      = ({ c1BusyState with status := some "Voice busy" }, none) :=
  ⟨rfl, (c1_amended_speak_while_busy true id c1BusyState rfl).1 rfl⟩

/-- C5: a playback job launched by `speak()` carries a non-zero start offset
only when the paused flag is set, the stored resume offset is non-zero and
the stored resume path equals the current cache path — and then it is
exactly the stored resume offset; whenever that condition fails, the
launched job starts at offset 0. -/
theorem c5_speak_resume_offset (createOk : Bool) (sanitize : String → String)
    (s : TtsState) (j : TtsJob)
    (hj : (speakLastAssistantReply createOk sanitize s).2 = some j) :
    (¬(s.ttsPaused = true ∧ 0 < s.ttsResumeOffset ∧ s.ttsResumePath = s.ttsCachedPath) →
       j.startOffset = 0) ∧
    (j.startOffset ≠ 0 →
       j.startOffset = s.ttsResumeOffset ∧ s.ttsPaused = true ∧
       0 < s.ttsResumeOffset ∧ s.ttsResumePath = s.ttsCachedPath) := by
  unfold speakLastAssistantReply startTtsTask at hj
  by_cases hm : s.isMuted = true
  · rw [if_pos hm] at hj
    simp at hj
  rw [if_neg hm] at hj
  by_cases hb : s.ttsBusy = true
  · rw [if_pos hb] at hj
    simp at hj
  rw [if_neg hb] at hj
  by_cases he : s.lastAssistantReply = ""
  · rw [if_pos he] at hj
    simp at hj
  rw [if_neg he] at hj
  simp only [] at hj
  rw [if_neg hb, if_neg (by simp)] at hj
  by_cases hck : createOk = false
  · rw [if_pos hck] at hj
    simp at hj
  rw [if_neg hck] at hj
  simp only [] at hj
  injection hj with hj
  subst hj
  by_cases hcond : s.ttsPaused = true ∧
      (s.ttsAudioReady && !(s.ttsCachedPath == "")
        && (sanitize s.lastAssistantReply == s.ttsCachedText)) = true ∧
      0 < s.ttsResumeOffset ∧ s.ttsResumePath ≠ "" ∧ s.ttsResumePath = s.ttsCachedPath
  · constructor
    · intro hnot
      exact absurd ⟨hcond.1, hcond.2.2.1, hcond.2.2.2.2⟩ hnot
    · intro _
      simp only [if_pos hcond]
      exact ⟨by trivial, hcond.1, hcond.2.2.1, hcond.2.2.2.2⟩
  · constructor
    · intro _
      simp only [if_neg hcond]
    · intro hne
      simp only [if_neg hcond] at hne
      exact absurd rfl hne

theorem c5_speak_resume_offset_witness :
    (¬(c5WitState.ttsPaused = true ∧ 0 < c5WitState.ttsResumeOffset ∧
        c5WitState.ttsResumePath = c5WitState.ttsCachedPath) →
      (⟨"Hi", true, ttsCachePath, true, 64⟩ : TtsJob).startOffset = 0) ∧
    ((⟨"Hi", true, ttsCachePath, true, 64⟩ : TtsJob).startOffset ≠ 0 →
      (⟨"Hi", true, ttsCachePath, true, 64⟩ : TtsJob).startOffset
          = c5WitState.ttsResumeOffset ∧
      c5WitState.ttsPaused = true ∧ 0 < c5WitState.ttsResumeOffset ∧
      c5WitState.ttsResumePath = c5WitState.ttsCachedPath) :=
  c5_speak_resume_offset true id c5WitState
    ⟨"Hi", true, ttsCachePath, true, 64⟩ (by decide)

/-- C10: every entry into the prompt editor first invokes `clearTtsCache`,
so (whenever the SD card mounts) the cache entry is invalidated — ready flag
cleared, fingerprint and path emptied — the pause/resume cursor is reset,
and the backing cache file is deleted. -/
theorem c10_prompt_editor_clears_cache (mountOk : Bool) (s : TtsState)
    (hm : mountOk = true) :
    readPromptFromKeyboard mountOk s = clearTtsCache mountOk s ∧
    (readPromptFromKeyboard mountOk s).ttsAudioReady = false ∧
    (readPromptFromKeyboard mountOk s).ttsCachedText = "" ∧
    (readPromptFromKeyboard mountOk s).ttsCachedPath = "" ∧
    (readPromptFromKeyboard mountOk s).ttsPaused = false ∧
    (readPromptFromKeyboard mountOk s).ttsPauseRequested = false ∧
    (readPromptFromKeyboard mountOk s).ttsResumeOffset = 0 ∧
    (readPromptFromKeyboard mountOk s).ttsResumePath = "" ∧
    (readPromptFromKeyboard mountOk s).ttsPlaybackActive = false ∧
    (readPromptFromKeyboard mountOk s).cacheFile = none := by
  subst hm
  refine ⟨rfl, ?_⟩
  simp [readPromptFromKeyboard, clearTtsCache]

theorem c10_prompt_editor_clears_cache_witness :
    readPromptFromKeyboard true c10WitState = clearTtsCache true c10WitState ∧
    (readPromptFromKeyboard true c10WitState).ttsAudioReady = false ∧
    (readPromptFromKeyboard true c10WitState).ttsCachedText = "" ∧
    (readPromptFromKeyboard true c10WitState).ttsCachedPath = "" ∧
    (readPromptFromKeyboard true c10WitState).ttsPaused = false ∧
    (readPromptFromKeyboard true c10WitState).ttsPauseRequested = false ∧
    (readPromptFromKeyboard true c10WitState).ttsResumeOffset = 0 ∧
    (readPromptFromKeyboard true c10WitState).ttsResumePath = "" ∧
    (readPromptFromKeyboard true c10WitState).ttsPlaybackActive = false ∧
    (readPromptFromKeyboard true c10WitState).cacheFile = none :=
  c10_prompt_editor_clears_cache true c10WitState rfl

theorem c9_amended_witness :
    ((readChunkedBodyToFile ([122, 122] ++ 13 :: 10 :: [13, 10])).1 = true ∧
     (readChunkedBodyToFile ([122, 122] ++ 13 :: 10 :: [13, 10])).2.1 = []) ∧
    downloadTtsAudio ⟨true, true, true, true, true, true, 200, true, -1, []⟩ "x" none
      = ⟨false, none, some "Voice read error"⟩ :=
  ⟨(c9_amended_malformed_line_is_terminal [122, 122] [13, 10]
      (by decide) (by decide) (by decide)).1,
   (c9_amended_malformed_line_is_terminal [122, 122] [13, 10]
      (by decide) (by decide) (by decide)).2
     ⟨true, true, true, true, true, true, 200, true, -1, []⟩ "x" none
     rfl (by decide) rfl rfl rfl rfl rfl rfl rfl (by decide)⟩

theorem workerDownloadPhase_preserves (wenv : WorkerEnv) (job : TtsJob) (s : TtsState) :
    (workerDownloadPhase wenv job s).st.ttsPrefetchPending = s.ttsPrefetchPending ∧
    (workerDownloadPhase wenv job s).st.lastAssistantReply = s.lastAssistantReply ∧
    (workerDownloadPhase wenv job s).st.isMuted = s.isMuted ∧
    (workerDownloadPhase wenv job s).st.ttsBusy = s.ttsBusy := by
  unfold workerDownloadPhase
  by_cases h1 : job.useCache = true
  · rw [if_pos h1]
    exact ⟨rfl, rfl, rfl, rfl⟩
  · rw [if_neg h1]
    generalize downloadTtsAudio wenv.net job.sanitizedText s.cacheFile = r
    by_cases h2 : r.ok = false ∨ wenv.cancelDl = true
    · rw [if_pos h2]
      by_cases h3 : wenv.cancelDl = false
      · rw [if_pos h3]
        exact ⟨rfl, rfl, rfl, rfl⟩
      · rw [if_neg h3]
        exact ⟨rfl, rfl, rfl, rfl⟩
    · rw [if_neg h2]
      exact ⟨rfl, rfl, rfl, rfl⟩

theorem workerPlayPhase_preserves (wenv : WorkerEnv) (job : TtsJob)
    (audioPath : String) (readyToPlay : Bool) (s : TtsState) :
    (workerPlayPhase wenv job audioPath readyToPlay s).cacheFile = s.cacheFile ∧
    (workerPlayPhase wenv job audioPath readyToPlay s).ttsAudioReady = s.ttsAudioReady ∧
    (workerPlayPhase wenv job audioPath readyToPlay s).ttsCachedText = s.ttsCachedText ∧
    (workerPlayPhase wenv job audioPath readyToPlay s).ttsCachedPath = s.ttsCachedPath ∧
    (workerPlayPhase wenv job audioPath readyToPlay s).ttsPrefetchPending
        = s.ttsPrefetchPending ∧
    (workerPlayPhase wenv job audioPath readyToPlay s).lastAssistantReply
        = s.lastAssistantReply ∧
    (workerPlayPhase wenv job audioPath readyToPlay s).isMuted = s.isMuted ∧
    (workerPlayPhase wenv job audioPath readyToPlay s).ttsBusy = s.ttsBusy := by
  simp only [workerPlayPhase]
  by_cases h1 : readyToPlay = true ∧ wenv.cancelDl = false
  · rw [if_pos h1]
    by_cases h2 : job.playAfterDownload = true
    · rw [if_pos h2]
      generalize playTtsFromSD wenv.penv
        (if audioPath = ttsCachePath then s.cacheFile else none) job.startOffset = pr
      by_cases h3 : pr.1 = PlayExit.pausedDrain
      · rw [if_pos h3]
        exact ⟨rfl, rfl, rfl, rfl, rfl, rfl, rfl, rfl⟩
      · rw [if_neg h3]
        by_cases h4 : playExitSuccess pr.1 = false ∧ wenv.cancelEnd = false
        · rw [if_pos h4]
          exact ⟨rfl, rfl, rfl, rfl, rfl, rfl, rfl, rfl⟩
        · rw [if_neg h4]
          by_cases h5 : wenv.cancelEnd = false
          · rw [if_pos h5]
            exact ⟨rfl, rfl, rfl, rfl, rfl, rfl, rfl, rfl⟩
          · rw [if_neg h5]
            exact ⟨rfl, rfl, rfl, rfl, rfl, rfl, rfl, rfl⟩
    · rw [if_neg h2]
      exact ⟨rfl, rfl, rfl, rfl, rfl, rfl, rfl, rfl⟩
  · rw [if_neg h1]
    exact ⟨rfl, rfl, rfl, rfl, rfl, rfl, rfl, rfl⟩

theorem startTtsPrefetch_preserves (createOk : Bool) (sanitize : String → String)
    (reply : String) (s : TtsState) :
    (startTtsPrefetch createOk sanitize reply s).1.cacheFile = s.cacheFile ∧
    (startTtsPrefetch createOk sanitize reply s).1.ttsAudioReady = s.ttsAudioReady ∧
    (startTtsPrefetch createOk sanitize reply s).1.ttsCachedText = s.ttsCachedText ∧
    (startTtsPrefetch createOk sanitize reply s).1.ttsCachedPath = s.ttsCachedPath ∧
    (startTtsPrefetch createOk sanitize reply s).1.lastAssistantReply
        = s.lastAssistantReply ∧
    (startTtsPrefetch createOk sanitize reply s).1.isMuted = s.isMuted := by
  by_cases hr : reply = ""
  · simp [startTtsPrefetch, hr]
  by_cases hm : s.isMuted = true
  · simp [startTtsPrefetch, hr, hm]
  by_cases hb : s.ttsBusy = true
  · simp [startTtsPrefetch, hr, hm, hb]
  by_cases hu : (s.ttsAudioReady && !(s.ttsCachedPath == "")
      && (sanitize reply == s.ttsCachedText)) = true
  · obtain ⟨⟨ha, hp2⟩, hq⟩ :
        (s.ttsAudioReady = true ∧ ¬s.ttsCachedPath = "") ∧
          sanitize reply = s.ttsCachedText := by
      simpa [Bool.and_eq_true, Bool.not_eq_true', beq_eq_false_iff_ne] using hu
    simp [startTtsPrefetch, startTtsTask, hr, hm, hb, ha, hp2, hq]
  · by_cases hc : createOk = false
    · simp [startTtsPrefetch, startTtsTask, hr, hm, hb, hu, hc]
    · simp [startTtsPrefetch, startTtsTask, hr, hm, hb, hu, hc]

theorem startTtsPrefetch_pending_false (createOk : Bool) (sanitize : String → String)
    (reply : String) (s : TtsState) (hb : s.ttsBusy = false)
    (hp : s.ttsPrefetchPending = false) :
    (startTtsPrefetch createOk sanitize reply s).1.ttsPrefetchPending = false := by
  by_cases hr : reply = ""
  · simp [startTtsPrefetch, hr, hp]
  by_cases hm : s.isMuted = true
  · simp [startTtsPrefetch, hr, hm, hp]
  by_cases hu : (s.ttsAudioReady && !(s.ttsCachedPath == "")
      && (sanitize reply == s.ttsCachedText)) = true
  · obtain ⟨⟨ha, hp2⟩, hq⟩ :
        (s.ttsAudioReady = true ∧ ¬s.ttsCachedPath = "") ∧
          sanitize reply = s.ttsCachedText := by
      simpa [Bool.and_eq_true, Bool.not_eq_true', beq_eq_false_iff_ne] using hu
    simp [startTtsPrefetch, startTtsTask, hr, hm, hb, ha, hp2, hq]
  · by_cases hc : createOk = false
    · simp [startTtsPrefetch, startTtsTask, hr, hm, hb, hu, hc]
    · simp [startTtsPrefetch, startTtsTask, hr, hm, hb, hu, hc]

theorem startTtsPrefetch_job_shape (createOk : Bool) (sanitize : String → String)
    (reply : String) (s : TtsState) (j : TtsJob)
    (hj : (startTtsPrefetch createOk sanitize reply s).2 = some j) :
    j.playAfterDownload = false ∧ j.sanitizedText = sanitize reply ∧
    j.startOffset = 0 := by
  by_cases hr : reply = ""
  · simp [startTtsPrefetch, hr] at hj
  by_cases hm : s.isMuted = true
  · simp [startTtsPrefetch, hr, hm] at hj
  by_cases hb : s.ttsBusy = true
  · simp [startTtsPrefetch, hr, hm, hb] at hj
  by_cases hu : (s.ttsAudioReady && !(s.ttsCachedPath == "")
      && (sanitize reply == s.ttsCachedText)) = true
  · simp [startTtsPrefetch, startTtsTask, hr, hm, hb, hu] at hj
  · by_cases hc : createOk = false
    · simp [startTtsPrefetch, startTtsTask, hr, hm, hb, hu, hc] at hj
    · simp [startTtsPrefetch, startTtsTask, hr, hm, hb, hu, hc] at hj
      subst hj
      exact ⟨rfl, rfl, rfl⟩

theorem ttsWorkerFinish_dlInvoked (wenv : WorkerEnv) (createOk : Bool)
    (sanitize : String → String) (dlInv : Bool) (s2 : TtsState) :
    (ttsWorkerFinish wenv createOk sanitize dlInv s2).dlInvoked = dlInv := by
  simp only [ttsWorkerFinish]
  split <;> (try split) <;> rfl

theorem ttsWorkerFinish_pending_chain (wenv : WorkerEnv) (createOk : Bool)
    (sanitize : String → String) (dlInv : Bool) (s2 : TtsState) :
    (ttsWorkerFinish wenv createOk sanitize dlInv s2).st.ttsPrefetchPending = false ∧
    ∀ j, (ttsWorkerFinish wenv createOk sanitize dlInv s2).chained = some j →
      j.playAfterDownload = false ∧ j.sanitizedText = sanitize s2.lastAssistantReply ∧
      j.startOffset = 0 := by
  by_cases hce : wenv.cancelEnd = true <;>
    by_cases hpd : s2.ttsPrefetchPending = true
  · simp only [ttsWorkerFinish]
    simp only [hce, if_true, ite_true]
    rw [if_pos hpd]
    refine ⟨startTtsPrefetch_pending_false _ _ _ _ rfl rfl, fun j hj => ?_⟩
    exact startTtsPrefetch_job_shape _ _ _ _ j hj
  · simp [ttsWorkerFinish, hce, hpd]
  · simp only [ttsWorkerFinish]
    simp only [hce, Bool.false_eq_true, if_false, ite_false]
    rw [if_pos hpd]
    refine ⟨startTtsPrefetch_pending_false _ _ _ _ rfl rfl, fun j hj => ?_⟩
    exact startTtsPrefetch_job_shape _ _ _ _ j hj
  · simp [ttsWorkerFinish, hce, hpd]

theorem ttsWorkerFinish_cache_fields (wenv : WorkerEnv) (createOk : Bool)
    (sanitize : String → String) (dlInv : Bool) (s2 : TtsState) :
    (ttsWorkerFinish wenv createOk sanitize dlInv s2).st.cacheFile = s2.cacheFile ∧
    (ttsWorkerFinish wenv createOk sanitize dlInv s2).st.ttsAudioReady
        = s2.ttsAudioReady ∧
    (ttsWorkerFinish wenv createOk sanitize dlInv s2).st.ttsCachedText
        = s2.ttsCachedText ∧
    (ttsWorkerFinish wenv createOk sanitize dlInv s2).st.ttsCachedPath
        = s2.ttsCachedPath := by
  by_cases hce : wenv.cancelEnd = true <;>
    by_cases hpd : s2.ttsPrefetchPending = true
  · simp only [ttsWorkerFinish]
    simp only [hce, if_true, ite_true]
    rw [if_pos hpd]
    obtain ⟨g1, g2, g3, g4, _, _⟩ := startTtsPrefetch_preserves createOk sanitize
      s2.lastAssistantReply
      { s2 with status := some "Voice cancelled", ttsPaused := false,
                ttsResumeOffset := 0, ttsResumePath := "", ttsBusy := false,
                ttsCancelRequested := false, ttsPauseRequested := false,
                ttsPlaybackActive := false, ttsPrefetchPending := false }
    exact ⟨g1, g2, g3, g4⟩
  · simp [ttsWorkerFinish, hce, hpd]
  · simp only [ttsWorkerFinish]
    simp only [hce, Bool.false_eq_true, if_false, ite_false]
    rw [if_pos hpd]
    obtain ⟨g1, g2, g3, g4, _, _⟩ := startTtsPrefetch_preserves createOk sanitize
      s2.lastAssistantReply
      { s2 with ttsBusy := false, ttsCancelRequested := false,
                ttsPauseRequested := false, ttsPlaybackActive := false,
                ttsPrefetchPending := false }
    exact ⟨g1, g2, g3, g4⟩
  · simp [ttsWorkerFinish, hce, hpd]

theorem ttsWorkerTask_pending_and_chain (wenv : WorkerEnv) (createOk : Bool)
    (sanitize : String → String) (job : TtsJob) (s : TtsState) :
    (ttsWorkerTask wenv createOk sanitize job s).st.ttsPrefetchPending = false ∧
    ∀ j, (ttsWorkerTask wenv createOk sanitize job s).chained = some j →
      j.playAfterDownload = false ∧ j.sanitizedText = sanitize s.lastAssistantReply ∧
      j.startOffset = 0 := by
  obtain ⟨h1, h2⟩ := ttsWorkerFinish_pending_chain wenv createOk sanitize
    (workerDownloadPhase wenv job (workerStart job s)).dlInvoked
    (workerPlayPhase wenv job
      (workerDownloadPhase wenv job (workerStart job s)).audioPath
      (workerDownloadPhase wenv job (workerStart job s)).readyToPlay
      (workerDownloadPhase wenv job (workerStart job s)).st)
  refine ⟨h1, fun j hj => ?_⟩
  have h3 := h2 j hj
  have h4 : (workerPlayPhase wenv job
      (workerDownloadPhase wenv job (workerStart job s)).audioPath
      (workerDownloadPhase wenv job (workerStart job s)).readyToPlay
      (workerDownloadPhase wenv job (workerStart job s)).st).lastAssistantReply
      = (workerDownloadPhase wenv job (workerStart job s)).st.lastAssistantReply :=
    (workerPlayPhase_preserves _ _ _ _ _).2.2.2.2.2.1
  have h5 : (workerDownloadPhase wenv job (workerStart job s)).st.lastAssistantReply
      = (workerStart job s).lastAssistantReply :=
    (workerDownloadPhase_preserves _ _ _).2.1
  rw [h4, h5] at h3
  exact h3

theorem ttsWorkerTask_dlInvoked_useCache (wenv : WorkerEnv) (createOk : Bool)
    (sanitize : String → String) (job : TtsJob) (s : TtsState)
    (h : job.useCache = true) :
    (ttsWorkerTask wenv createOk sanitize job s).dlInvoked = false := by
  have h2 : (workerDownloadPhase wenv job (workerStart job s)).dlInvoked = false := by
    simp [workerDownloadPhase, h]
  exact (ttsWorkerFinish_dlInvoked wenv createOk sanitize
    (workerDownloadPhase wenv job (workerStart job s)).dlInvoked
    (workerPlayPhase wenv job
      (workerDownloadPhase wenv job (workerStart job s)).audioPath
      (workerDownloadPhase wenv job (workerStart job s)).readyToPlay
      (workerDownloadPhase wenv job (workerStart job s)).st)).trans h2

theorem ttsWorkerTask_cache_glue (wenv : WorkerEnv) (createOk : Bool)
    (sanitize : String → String) (job : TtsJob) (s : TtsState) :
    (ttsWorkerTask wenv createOk sanitize job s).st.cacheFile
        = (workerDownloadPhase wenv job (workerStart job s)).st.cacheFile ∧
    (ttsWorkerTask wenv createOk sanitize job s).st.ttsAudioReady
        = (workerDownloadPhase wenv job (workerStart job s)).st.ttsAudioReady ∧
    (ttsWorkerTask wenv createOk sanitize job s).st.ttsCachedText
        = (workerDownloadPhase wenv job (workerStart job s)).st.ttsCachedText ∧
    (ttsWorkerTask wenv createOk sanitize job s).st.ttsCachedPath
        = (workerDownloadPhase wenv job (workerStart job s)).st.ttsCachedPath := by
  obtain ⟨f1, f2, f3, f4⟩ := ttsWorkerFinish_cache_fields wenv createOk sanitize
    (workerDownloadPhase wenv job (workerStart job s)).dlInvoked
    (workerPlayPhase wenv job
      (workerDownloadPhase wenv job (workerStart job s)).audioPath
      (workerDownloadPhase wenv job (workerStart job s)).readyToPlay
      (workerDownloadPhase wenv job (workerStart job s)).st)
  obtain ⟨p1, p2, p3, p4, _, _, _, _⟩ := workerPlayPhase_preserves wenv job
    (workerDownloadPhase wenv job (workerStart job s)).audioPath
    (workerDownloadPhase wenv job (workerStart job s)).readyToPlay
    (workerDownloadPhase wenv job (workerStart job s)).st
  exact ⟨f1.trans p1, f2.trans p2, f3.trans p3, f4.trans p4⟩

theorem workerDownloadPhase_useCache (wenv : WorkerEnv) (job : TtsJob) (s : TtsState)
    (hu : job.useCache = true) :
    (workerDownloadPhase wenv job s).st = s := by
  simp [workerDownloadPhase, hu]

theorem workerDownloadPhase_cancel (wenv : WorkerEnv) (job : TtsJob) (s : TtsState)
    (hu : job.useCache = false) (hc : wenv.cancelDl = true) :
    (workerDownloadPhase wenv job s).st.cacheFile
        = (downloadTtsAudio wenv.net job.sanitizedText s.cacheFile).file ∧
    (workerDownloadPhase wenv job s).st.ttsAudioReady = s.ttsAudioReady ∧
    (workerDownloadPhase wenv job s).st.ttsCachedText = s.ttsCachedText ∧
    (workerDownloadPhase wenv job s).st.ttsCachedPath = s.ttsCachedPath ∧
    (workerDownloadPhase wenv job s).readyToPlay = false := by
  simp only [workerDownloadPhase, hu, Bool.false_eq_true, if_false]
  rw [if_pos (Or.inr hc), if_neg (by simp [hc])]
  exact ⟨rfl, rfl, rfl, rfl, rfl⟩

theorem workerDownloadPhase_success (wenv : WorkerEnv) (job : TtsJob) (s : TtsState)
    (hu : job.useCache = false) (hc : wenv.cancelDl = false)
    (hok : (downloadTtsAudio wenv.net job.sanitizedText s.cacheFile).ok = true) :
    (workerDownloadPhase wenv job s).st.cacheFile
        = (downloadTtsAudio wenv.net job.sanitizedText s.cacheFile).file ∧
    (workerDownloadPhase wenv job s).st.ttsAudioReady = true ∧
    (workerDownloadPhase wenv job s).st.ttsCachedText = job.sanitizedText ∧
    (workerDownloadPhase wenv job s).st.ttsCachedPath = ttsCachePath := by
  simp only [workerDownloadPhase, hu, Bool.false_eq_true, if_false]
  rw [if_neg (by simp [hok, hc])]
  exact ⟨rfl, rfl, rfl, rfl⟩

theorem downloadTtsAudio_ok_file (net : NetEnv) (text : String)
    (cache : Option (List Nat))
    (h : (downloadTtsAudio net text cache).ok = true) :
    ∃ b, (downloadTtsAudio net text cache).file = some b := by
  by_cases h1 : net.apiKey = false
  · simp [downloadTtsAudio, h1] at h
  by_cases h2 : text = ""
  · simp [downloadTtsAudio, h1, h2] at h
  by_cases h3 : net.mountOk = false
  · simp [downloadTtsAudio, h1, h2, h3] at h
  by_cases h4 : net.dirOk = false
  · simp [downloadTtsAudio, h1, h2, h3, h4] at h
  by_cases h5 : net.openOk = false
  · simp [downloadTtsAudio, h1, h2, h3, h4, h5] at h
  by_cases h6 : net.connectOk = false
  · simp [downloadTtsAudio, h1, h2, h3, h4, h5, h6] at h
  by_cases h7 : net.headersOk = false
  · simp [downloadTtsAudio, h1, h2, h3, h4, h5, h6, h7] at h
  by_cases h8 : net.statusCode ≠ 200
  · simp [downloadTtsAudio, h1, h2, h3, h4, h5, h6, h7, h8] at h
  simp only [downloadTtsAudio] at h ⊢
  rw [if_neg h1, if_neg h2, if_neg h3, if_neg h4, if_neg h5, if_neg h6, if_neg h7,
    if_neg h8] at h ⊢
  by_cases h9 : (if net.chunked = true then
      ((readChunkedBodyToFile net.body).1, (readChunkedBodyToFile net.body).2.1)
    else readFixedBodyToFile net.body net.contentLength).1 = true
  · rw [if_pos h9] at h ⊢
    exact ⟨_, rfl⟩
  · rw [if_neg h9] at h
    simp at h

/-- C2 counterexample: a cancel requested during the download phase does
not interrupt the download (the source checks the flag only after
`downloadTtsAudio` returns), so after the job exits the cache file is
present with the fully downloaded audio — contradicting the claim that no
cache file is present at the cache path. -/
theorem c2_cex_cancel_during_download_leaves_file :
    c2WenvCancel.cancelDl = true ∧ c2Job.useCache = false ∧
    (ttsWorkerTask c2WenvCancel true id c2Job c2PreState).st.cacheFile
      = some [1, 2, 3, 4] := by
  exact ⟨rfl, rfl, by decide⟩

/-- C2 amended: a cancel requested during the download phase is observed
only after `downloadTtsAudio` returns; when the download succeeded, the
complete cache file remains present at the cache path while the cache entry
fields (ready flag, fingerprint, path) keep their pre-job values — the
entry is not newly marked ready.  For a play-from-cache job, the cache file
and entry are unchanged from their pre-job values no matter when a cancel
arrives.  For a download-then-play job whose download succeeded with no
cancel during download, the cache file and entry retain the values
established by the completed download (file present, ready true,
fingerprint = job text, path = cache path) even if playback is cancelled. -/
theorem c2_amended_cancel_vs_phases (wenv : WorkerEnv) (createOk : Bool)
    (sanitize : String → String) (job : TtsJob) (s : TtsState) :
    (job.useCache = false → wenv.cancelDl = true →
      (downloadTtsAudio wenv.net job.sanitizedText s.cacheFile).ok = true →
      ((ttsWorkerTask wenv createOk sanitize job s).st.cacheFile
          = (downloadTtsAudio wenv.net job.sanitizedText s.cacheFile).file ∧
       (∃ b, (ttsWorkerTask wenv createOk sanitize job s).st.cacheFile = some b) ∧
       (ttsWorkerTask wenv createOk sanitize job s).st.ttsAudioReady
          = s.ttsAudioReady ∧
       (ttsWorkerTask wenv createOk sanitize job s).st.ttsCachedText
          = s.ttsCachedText ∧
       (ttsWorkerTask wenv createOk sanitize job s).st.ttsCachedPath
          = s.ttsCachedPath)) ∧
    (job.useCache = true →
      ((ttsWorkerTask wenv createOk sanitize job s).st.cacheFile = s.cacheFile ∧
       (ttsWorkerTask wenv createOk sanitize job s).st.ttsAudioReady
          = s.ttsAudioReady ∧
       (ttsWorkerTask wenv createOk sanitize job s).st.ttsCachedText
          = s.ttsCachedText ∧
       (ttsWorkerTask wenv createOk sanitize job s).st.ttsCachedPath
          = s.ttsCachedPath)) ∧
    (job.useCache = false → wenv.cancelDl = false →
      (downloadTtsAudio wenv.net job.sanitizedText s.cacheFile).ok = true →
      ((ttsWorkerTask wenv createOk sanitize job s).st.cacheFile
          = (downloadTtsAudio wenv.net job.sanitizedText s.cacheFile).file ∧
       (ttsWorkerTask wenv createOk sanitize job s).st.ttsAudioReady = true ∧
       (ttsWorkerTask wenv createOk sanitize job s).st.ttsCachedText
          = job.sanitizedText ∧
       (ttsWorkerTask wenv createOk sanitize job s).st.ttsCachedPath
          = ttsCachePath)) := by
  obtain ⟨g1, g2, g3, g4⟩ := ttsWorkerTask_cache_glue wenv createOk sanitize job s
  refine ⟨fun hu hc hok => ?_, fun hu => ?_, fun hu hc hok => ?_⟩
  · obtain ⟨d1, d2, d3, d4, _⟩ :=
      workerDownloadPhase_cancel wenv job (workerStart job s) hu hc
    refine ⟨g1.trans d1, ?_, g2.trans d2, g3.trans d3, g4.trans d4⟩
    obtain ⟨b, hb⟩ := downloadTtsAudio_ok_file wenv.net job.sanitizedText s.cacheFile hok
    exact ⟨b, (g1.trans d1).trans hb⟩
  · have hd := workerDownloadPhase_useCache wenv job (workerStart job s) hu
    refine ⟨?_, ?_, ?_, ?_⟩
    · exact g1.trans (by rw [hd]; simp [workerStart])
    · exact g2.trans (by rw [hd]; simp [workerStart])
    · exact g3.trans (by rw [hd]; simp [workerStart])
    · exact g4.trans (by rw [hd]; simp [workerStart])
  · obtain ⟨d1, d2, d3, d4⟩ :=
      workerDownloadPhase_success wenv job (workerStart job s) hu hc hok
    exact ⟨g1.trans d1, g2.trans d2, g3.trans d3, g4.trans d4⟩

theorem c2_amended_witness :
    ((ttsWorkerTask c2WenvCancel true id c2Job c2PreState).st.cacheFile
        = (downloadTtsAudio c2WenvCancel.net c2Job.sanitizedText
            c2PreState.cacheFile).file ∧
     (∃ b, (ttsWorkerTask c2WenvCancel true id c2Job c2PreState).st.cacheFile
        = some b) ∧
     (ttsWorkerTask c2WenvCancel true id c2Job c2PreState).st.ttsAudioReady
        = c2PreState.ttsAudioReady ∧
     (ttsWorkerTask c2WenvCancel true id c2Job c2PreState).st.ttsCachedText
        = c2PreState.ttsCachedText ∧
     (ttsWorkerTask c2WenvCancel true id c2Job c2PreState).st.ttsCachedPath
        = c2PreState.ttsCachedPath) ∧
    ((ttsWorkerTask c2WenvClean true id c2CacheJob c2PreState).st.cacheFile
        = c2PreState.cacheFile ∧
     (ttsWorkerTask c2WenvClean true id c2CacheJob c2PreState).st.ttsAudioReady
        = c2PreState.ttsAudioReady ∧
     (ttsWorkerTask c2WenvClean true id c2CacheJob c2PreState).st.ttsCachedText
        = c2PreState.ttsCachedText ∧
     (ttsWorkerTask c2WenvClean true id c2CacheJob c2PreState).st.ttsCachedPath
        = c2PreState.ttsCachedPath) ∧
    ((ttsWorkerTask c2WenvClean true id c2Job c2PreState).st.cacheFile
        = (downloadTtsAudio c2WenvClean.net c2Job.sanitizedText
            c2PreState.cacheFile).file ∧
     (ttsWorkerTask c2WenvClean true id c2Job c2PreState).st.ttsAudioReady = true ∧
     (ttsWorkerTask c2WenvClean true id c2Job c2PreState).st.ttsCachedText
        = c2Job.sanitizedText ∧
     (ttsWorkerTask c2WenvClean true id c2Job c2PreState).st.ttsCachedPath
        = ttsCachePath) :=
  ⟨(c2_amended_cancel_vs_phases c2WenvCancel true id c2Job c2PreState).1
      rfl rfl (by decide),
   (c2_amended_cancel_vs_phases c2WenvClean true id c2CacheJob c2PreState).2.1 rfl,
   (c2_amended_cancel_vs_phases c2WenvClean true id c2Job c2PreState).2.2
      rfl rfl (by decide)⟩

/-- C3 counterexample: while the Worker is busy and playback is paused,
`startTtsPrefetch` does not only set `ttsPrefetchPending` — it also clears
the paused flag (and any pending pause request), so the claim that it "only
sets ttsPrefetchPending and returns" is false. -/
theorem c3_cex_busy_prefetch_clears_paused :
    c3CexState.ttsBusy = true ∧ c3CexState.ttsPaused = true ∧
    (startTtsPrefetch true id "x" c3CexState).1.ttsPaused = false := by
  exact ⟨rfl, rfl, by decide⟩

/-- C3 amended: a prefetch call made while a Worker job is running (device
not muted, text nonempty) clears `ttsPauseRequested` and `ttsPaused`, sets
`ttsPrefetchPending`, changes nothing else, and launches no job; a second
such call yields the same state (last-request-wins flag, not a queue).
When the running job finishes, the Worker makes exactly one chained
prefetch call for the latest assistant reply text, which launches at most
one job, always download-only at offset 0 with the sanitized latest reply
text — so two prefetches without an intervening completion cause at most
one eventual download, for the latest text, and never two concurrent
downloads. -/
theorem c3_amended_deferred_prefetch (createOk : Bool) (sanitize : String → String)
    (r1 r2 : String) (s : TtsState) (wenv : WorkerEnv) (job : TtsJob)
    (hb : s.ttsBusy = true) (hm : s.isMuted = false) (h1 : r1 ≠ "") (h2 : r2 ≠ "") :
    startTtsPrefetch createOk sanitize r1 s
      = ({ s with ttsPauseRequested := false, ttsPaused := false,
                  ttsPrefetchPending := true }, none) ∧
    startTtsPrefetch createOk sanitize r2 (startTtsPrefetch createOk sanitize r1 s).1
      = ({ s with ttsPauseRequested := false, ttsPaused := false,
                  ttsPrefetchPending := true }, none) ∧
    (ttsWorkerTask wenv createOk sanitize job
        { s with ttsPauseRequested := false, ttsPaused := false,
                 ttsPrefetchPending := true }).st.ttsPrefetchPending = false ∧
    ∀ j, (ttsWorkerTask wenv createOk sanitize job
        { s with ttsPauseRequested := false, ttsPaused := false,
                 ttsPrefetchPending := true }).chained = some j →
      j.playAfterDownload = false ∧ j.sanitizedText = sanitize s.lastAssistantReply ∧
      j.startOffset = 0 := by
  have hp1 : startTtsPrefetch createOk sanitize r1 s
      = ({ s with ttsPauseRequested := false, ttsPaused := false,
                  ttsPrefetchPending := true }, none) := by
    simp [startTtsPrefetch, h1, hm, hb]
  have hp2 : startTtsPrefetch createOk sanitize r2
      ({ s with ttsPauseRequested := false, ttsPaused := false,
                ttsPrefetchPending := true } : TtsState)
      = ({ s with ttsPauseRequested := false, ttsPaused := false,
                  ttsPrefetchPending := true }, none) := by
    simp [startTtsPrefetch, h2, hm, hb]
  obtain ⟨w1, w2⟩ := ttsWorkerTask_pending_and_chain wenv createOk sanitize job
    { s with ttsPauseRequested := false, ttsPaused := false,
             ttsPrefetchPending := true }
  refine ⟨hp1, ?_, w1, fun j hj => w2 j hj⟩
  rw [hp1]
  exact hp2

theorem c3_amended_witness :
    (startTtsPrefetch true id "a" c3WitState
      = ({ c3WitState with ttsPauseRequested := false, ttsPaused := false,
                           ttsPrefetchPending := true }, none)) ∧
    (startTtsPrefetch true id "b" (startTtsPrefetch true id "a" c3WitState).1
      = ({ c3WitState with ttsPauseRequested := false, ttsPaused := false,
                           ttsPrefetchPending := true }, none)) ∧
    (ttsWorkerTask c3Wenv true id c3Job
        { c3WitState with ttsPauseRequested := false, ttsPaused := false,
                          ttsPrefetchPending := true }).st.ttsPrefetchPending
      = false ∧
    ∀ j, (ttsWorkerTask c3Wenv true id c3Job
        { c3WitState with ttsPauseRequested := false, ttsPaused := false,
                          ttsPrefetchPending := true }).chained = some j →
      j.playAfterDownload = false ∧ j.sanitizedText = id c3WitState.lastAssistantReply ∧
      j.startOffset = 0 :=
  c3_amended_deferred_prefetch true id "a" "b" c3WitState c3Wenv c3Job
    rfl rfl (by decide) (by decide)

/-- C4 counterexample: with the cache entry ready, path nonempty and
fingerprint matching the text, but the Worker busy, prefetch defers (sets
`ttsPrefetchPending`) and posts no "Voice ready" status — so the claim as
stated, which has no Worker-idle hypothesis, is false. -/
theorem c4_cex_busy_prefetch_defers :
    (c4CexState.ttsAudioReady = true ∧ c4CexState.ttsCachedPath ≠ "" ∧
      id "Hi" = c4CexState.ttsCachedText) ∧
    (startTtsPrefetch true id "Hi" c4CexState).1.status ≠ some "Voice ready" ∧
    (startTtsPrefetch true id "Hi" c4CexState).1.ttsPrefetchPending = true := by
  exact ⟨⟨rfl, by decide, rfl⟩, by decide, by decide⟩

/-- C4 amended: if the cache entry is ready, its path nonempty and its
fingerprint equals the sanitized text — and the Worker is idle, the device
is not muted and the text is nonempty — then prefetch completes immediately
with status "Voice ready" without launching a Worker job, and a subsequent
`speak()` with the same text launches a play-from-cache job
(useCache = true) whose Worker run never invokes `downloadTtsAudio`. -/
theorem c4_amended_cache_hit (sanitize : String → String) (text : String)
    (s : TtsState) (wenv : WorkerEnv)
    (hready : s.ttsAudioReady = true) (hpath : s.ttsCachedPath ≠ "")
    (hmatch : sanitize text = s.ttsCachedText) (hbusy : s.ttsBusy = false)
    (hmut : s.isMuted = false) (htext : text ≠ "")
    (hlast : s.lastAssistantReply = text) :
    (startTtsPrefetch true sanitize text s).2 = none ∧
    (startTtsPrefetch true sanitize text s).1.status = some "Voice ready" ∧
    (startTtsPrefetch true sanitize text s).1.ttsAudioReady = true ∧
    ∃ j, (speakLastAssistantReply true sanitize
            (startTtsPrefetch true sanitize text s).1).2 = some j ∧
      j.useCache = true ∧ j.playAfterDownload = true ∧
      (ttsWorkerTask wenv true sanitize j
        (speakLastAssistantReply true sanitize
          (startTtsPrefetch true sanitize text s).1).1).dlInvoked = false := by
  have hp : startTtsPrefetch true sanitize text s
      = ({ s with ttsPauseRequested := false, ttsPaused := false,
                  ttsPrefetchPending := false, ttsAudioReady := true,
                  status := some "Voice ready" }, none) := by
    simp [startTtsPrefetch, startTtsTask, htext, hmut, hbusy, hready, hpath, hmatch]
  rw [hp]
  refine ⟨rfl, rfl, rfl,
    ⟨⟨sanitize text, true, s.ttsCachedPath, true, 0⟩, ?_, rfl, rfl, ?_⟩⟩
  · simp [speakLastAssistantReply, startTtsTask, hmut, hbusy, hlast, htext,
      hready, hpath, hmatch]
  · exact ttsWorkerTask_dlInvoked_useCache wenv true sanitize
      ⟨sanitize text, true, s.ttsCachedPath, true, 0⟩ _ rfl

theorem flatten_length_even (l : List (List Nat))
    (h : ∀ b ∈ l, b.length % 2 = 0) : l.flatten.length % 2 = 0 := by
  induction l with
  | nil => simp
  | cons b l ih =>
    simp only [List.flatten_cons, List.length_append]
    have hb := h b (by simp)
    have hl := ih (fun x hx => h x (by simp [hx]))
    omega

theorem playInv_consume (file : List Nat) (start pos : Nat) (delivered : List Nat)
    (inFlight : List (List Nat)) (c : Nat)
    (h : PlayInv file start pos delivered inFlight) :
    PlayInv file start pos (delivered ++ (inFlight.take c).flatten)
      (inFlight.drop c) := by
  obtain ⟨h1, h2, h3, h4, h5, h6, h7, h8⟩ := h
  have hco : playCombined (delivered ++ (inFlight.take c).flatten) (inFlight.drop c)
      = playCombined delivered inFlight := by
    show delivered ++ (inFlight.take c).flatten ++ (inFlight.drop c).flatten = _
    rw [List.append_assoc, ← List.flatten_append, List.take_append_drop]
    rfl
  refine ⟨h1, h2, ?_, ?_, ?_, ?_, ?_, ?_⟩
  · rw [hco]; exact h3
  · rw [hco]; exact h4
  · rw [hco]; exact h5
  · rw [hco]; exact h6
  · have he := flatten_length_even (inFlight.take c)
      (fun b hb => h8 b (List.mem_of_mem_take hb))
    simp only [List.length_append]
    omega
  · exact fun b hb => h8 b (List.mem_of_mem_drop hb)

theorem playInv_slack_zero (file : List Nat) (start pos : Nat) (delivered : List Nat)
    (inFlight : List (List Nat))
    (h : PlayInv file start pos delivered inFlight) (hlt : pos < file.length) :
    start + (playCombined delivered inFlight).length = pos := by
  obtain ⟨h1, h2, h3, h4, h5, h6, h7, h8⟩ := h
  by_cases hs : start + (playCombined delivered inFlight).length < pos
  · exact absurd (h5 hs) (by omega)
  · omega

theorem chunk_facts (file : List Nat) (cb pos : Nat)
    (hn : ((file.drop pos).take cb).length ≠ 0) :
    pos < file.length ∧
    ((file.drop pos).take cb).length ≤ cb ∧
    pos + ((file.drop pos).take cb).length ≤ file.length ∧
    (((file.drop pos).take cb).length ≠ cb →
      pos + ((file.drop pos).take cb).length = file.length) := by
  have hlen : ((file.drop pos).take cb).length = min cb (file.length - pos) := by
    rw [List.length_take, List.length_drop]
  rw [hlen] at hn ⊢
  omega

theorem playInv_read_one (file : List Nat) (start cb pos : Nat)
    (delivered : List Nat) (inFlight : List (List Nat))
    (hcb2 : cb % 2 = 0) (hcb1 : 0 < cb)
    (h : PlayInv file start pos delivered inFlight)
    (hone : ((file.drop pos).take cb).length = 1) :
    PlayInv file start (pos + ((file.drop pos).take cb).length) delivered inFlight := by
  obtain ⟨hlt, hle, hfits, heof⟩ := chunk_facts file cb pos (by omega)
  have hz := playInv_slack_zero file start pos delivered inFlight h hlt
  obtain ⟨h1, h2, h3, h4, h5, h6, h7, h8⟩ := h
  rw [hone] at hfits heof ⊢
  have hposlen : pos + 1 = file.length := heof (by omega)
  exact ⟨by omega, by omega, by omega, by omega, fun _ => by omega, h6, h7, h8⟩

theorem playInv_read_submit (file : List Nat) (start cb pos : Nat)
    (delivered : List Nat) (inFlight : List (List Nat))
    (hcb2 : cb % 2 = 0) (hcb1 : 0 < cb)
    (h : PlayInv file start pos delivered inFlight)
    (hn : ((file.drop pos).take cb).length ≠ 0) :
    PlayInv file start (pos + ((file.drop pos).take cb).length) delivered
      (inFlight ++
        [((file.drop pos).take cb).take
          (if ((file.drop pos).take cb).length % 2 = 1
           then ((file.drop pos).take cb).length - 1
           else ((file.drop pos).take cb).length)]) := by
  obtain ⟨hlt, hle, hfits, heof⟩ := chunk_facts file cb pos hn
  have hz := playInv_slack_zero file start pos delivered inFlight h hlt
  obtain ⟨h1, h2, h3, h4, h5, h6, h7, h8⟩ := h
  set chunk := (file.drop pos).take cb with hchunk
  set n := chunk.length with hnn
  set n2 := if n % 2 = 1 then n - 1 else n with hn2
  have hn2le : n2 ≤ n := by rw [hn2]; split <;> omega
  have hn2even : n2 % 2 = 0 := by rw [hn2]; split <;> omega
  have hslack : n - n2 ≤ 1 := by rw [hn2]; split <;> omega
  have hodd : n - n2 = 1 → pos + n = file.length := by
    intro hd
    refine heof ?_
    intro hcbeq
    rw [hn2] at hd
    rw [hcbeq] at hd
    split at hd <;> omega
  have htk : chunk.take n2 = (file.drop pos).take n2 := by
    rw [hchunk, List.take_take]
    congr 1
    omega
  have htklen : (chunk.take n2).length = n2 := by
    rw [List.length_take]
    omega
  have hcomb : playCombined delivered (inFlight ++ [chunk.take n2])
      = playCombined delivered inFlight ++ chunk.take n2 := by
    show delivered ++ (inFlight ++ [chunk.take n2]).flatten = _
    rw [List.flatten_append]
    simp [playCombined]
  have hcomblen : (playCombined delivered inFlight ++ chunk.take n2).length
      = (playCombined delivered inFlight).length + n2 := by
    rw [List.length_append, htklen]
  have hdropstart : file.drop pos = (file.drop start).drop (pos - start) := by
    rw [List.drop_drop]
    congr 1
    omega
  have hcontent : playCombined delivered inFlight ++ chunk.take n2
      = (file.drop start).take ((playCombined delivered inFlight).length + n2) := by
    have hLlen : (playCombined delivered inFlight).length = pos - start := by omega
    rw [List.take_add, ← h6, htk, hdropstart, hLlen]
  refine ⟨by omega, by omega, ?_, ?_, ?_, ?_, h7, ?_⟩
  · rw [hcomb, hcomblen]
    omega
  · rw [hcomb, hcomblen]
    omega
  · rw [hcomb, hcomblen]
    intro hs
    exact hodd (by omega)
  · rw [hcomb, hcomblen, hcontent]
  · intro b hb
    rcases List.mem_append.mp hb with hb | hb
    · exact h8 b hb
    · rw [List.mem_singleton] at hb
      rw [hb, htklen]
      exact hn2even

theorem playStepCore_post (file : List Nat) (cb start : Nat) (t : PTick) (st : PlaySt)
    (hcb2 : cb % 2 = 0) (hcb1 : 0 < cb)
    (hinv : PlayInv file start st.pos st.delivered st.inFlight) :
    playPost file start (playStepCore file cb t st) := by
  have hinvc : PlayInv file start st.pos
      (st.delivered ++ (st.inFlight.take t.consume).flatten)
      (st.inFlight.drop t.consume) :=
    playInv_consume file start st.pos st.delivered st.inFlight t.consume hinv
  simp only [playStepCore]
  by_cases hca : t.cancelA = true
  · rw [if_pos hca]
    exact fun h => absurd h (by decide)
  · rw [if_neg hca]
    by_cases hpp : st.pausePending = true
    · rw [if_pos hpp]
      by_cases hfl : (st.inFlight.drop t.consume).length = 0
      · rw [if_pos hfl]
        exact fun _ => ⟨hinvc, rfl, List.eq_nil_of_length_eq_zero hfl⟩
      · rw [if_neg hfl]
        exact hinvc
    · rw [if_neg hpp]
      by_cases hfill : st.fileDone = false ∧ (st.inFlight.drop t.consume).length < 3
      · rw [if_pos hfill]
        by_cases hn : ((file.drop st.pos).take cb).length = 0
        · rw [if_pos hn]
          by_cases hcb' : t.cancelB = true
          · rw [if_pos hcb']
            exact fun h => absurd h (by decide)
          · rw [if_neg hcb']
            by_cases hemp : (st.inFlight.drop t.consume).length = 0
            · rw [if_pos hemp]
              exact fun _ => ⟨hinvc, rfl, List.eq_nil_of_length_eq_zero hemp⟩
            · rw [if_neg hemp]
              by_cases hcc : t.cancelC = true
              · rw [if_pos hcc]
                exact fun h => absurd h (by decide)
              · rw [if_neg hcc]
                exact hinvc
        · rw [if_neg hn]
          by_cases hz :
              (if ((file.drop st.pos).take cb).length % 2 = 1
               then ((file.drop st.pos).take cb).length - 1
               else ((file.drop st.pos).take cb).length) = 0
          · rw [if_pos hz]
            have hone : ((file.drop st.pos).take cb).length = 1 := by
              by_cases hpar : ((file.drop st.pos).take cb).length % 2 = 1
              · rw [if_pos hpar] at hz
                omega
              · rw [if_neg hpar] at hz
                exact absurd hz hn
            have hinv1 : PlayInv file start
                (st.pos + ((file.drop st.pos).take cb).length)
                (st.delivered ++ (st.inFlight.take t.consume).flatten)
                (st.inFlight.drop t.consume) :=
              playInv_read_one file start cb st.pos
                (st.delivered ++ (st.inFlight.take t.consume).flatten)
                (st.inFlight.drop t.consume) hcb2 hcb1 hinvc hone
            by_cases hcb' : t.cancelB = true
            · rw [if_pos hcb']
              exact fun h => absurd h (by decide)
            · rw [if_neg hcb']
              by_cases hemp : (st.inFlight.drop t.consume).length = 0
              · rw [if_pos hemp]
                exact fun _ => ⟨hinv1, rfl, List.eq_nil_of_length_eq_zero hemp⟩
              · rw [if_neg hemp]
                by_cases hcc : t.cancelC = true
                · rw [if_pos hcc]
                  exact fun h => absurd h (by decide)
                · rw [if_neg hcc]
                  exact hinv1
          · rw [if_neg hz]
            by_cases hcb' : t.cancelB = true
            · rw [if_pos hcb']
              exact fun h => absurd h (by decide)
            · rw [if_neg hcb']
              by_cases hq : t.queueOk = false
              · rw [if_pos hq]
                exact fun h => absurd h (by decide)
              · rw [if_neg hq]
                exact playInv_read_submit file start cb st.pos
                  (st.delivered ++ (st.inFlight.take t.consume).flatten)
                  (st.inFlight.drop t.consume) hcb2 hcb1 hinvc hn
      · rw [if_neg hfill]
        by_cases hend : st.fileDone = true ∧ (st.inFlight.drop t.consume).length = 0
        · rw [if_pos hend]
          exact fun _ => ⟨hinvc, rfl, List.eq_nil_of_length_eq_zero hend.2⟩
        · rw [if_neg hend]
          by_cases hcc : t.cancelC = true
          · rw [if_pos hcc]
            exact fun h => absurd h (by decide)
          · rw [if_neg hcc]
            exact hinvc

theorem playStep_post (file : List Nat) (cb start : Nat) (t : PTick) (st : PlaySt)
    (hcb2 : cb % 2 = 0) (hcb1 : 0 < cb)
    (hinv : PlayInv file start st.pos st.delivered st.inFlight) :
    playPost file start (playStep file cb t st) := by
  simp only [playStep]
  by_cases h : st.pausePending = false ∧ t.pauseReq = true
  · rw [if_pos h]
    exact playStepCore_post file cb start t _ hcb2 hcb1 hinv
  · rw [if_neg h]
    exact playStepCore_post file cb start t st hcb2 hcb1 hinv

theorem playLoop_exit (file : List Nat) (cb start : Nat)
    (hcb2 : cb % 2 = 0) (hcb1 : 0 < cb) :
    ∀ (ticks : List PTick) (st : PlaySt),
      PlayInv file start st.pos st.delivered st.inFlight →
      ∀ ex st2, playLoop file cb ticks st = (ex, st2) →
        (ex = PlayExit.pausedDrain ∨ ex = PlayExit.natural) →
        PlayInv file start st2.pos st2.delivered st2.inFlight ∧
          st2.resume = st2.pos ∧ st2.inFlight = [] := by
  intro ticks
  induction ticks with
  | nil =>
    intro st hinv ex st2 h hex
    simp only [playLoop] at h
    injection h with h1 h2
    subst h1
    exact absurd hex (by decide)
  | cons t ts ih =>
    intro st hinv ex st2 h hex
    have hp := playStep_post file cb start t st hcb2 hcb1 hinv
    simp only [playLoop] at h
    cases hstep : playStep file cb t st with
    | inl r =>
      rw [hstep] at h hp
      obtain ⟨e, s⟩ := r
      have h' : (e, s) = (ex, st2) := h
      injection h' with h1 h2
      subst h1
      subst h2
      exact hp hex
    | inr s2 =>
      rw [hstep] at h hp
      have h' : playLoop file cb ts s2 = (ex, st2) := h
      exact ih s2 hp ex st2 h' hex

theorem c4_amended_witness :
    (startTtsPrefetch true id "Hi" c4WitState).2 = none ∧
    (startTtsPrefetch true id "Hi" c4WitState).1.status = some "Voice ready" ∧
    (startTtsPrefetch true id "Hi" c4WitState).1.ttsAudioReady = true ∧
    ∃ j, (speakLastAssistantReply true id
            (startTtsPrefetch true id "Hi" c4WitState).1).2 = some j ∧
      j.useCache = true ∧ j.playAfterDownload = true ∧
      (ttsWorkerTask c4Wenv true id j
        (speakLastAssistantReply true id
          (startTtsPrefetch true id "Hi" c4WitState).1).1).dlInvoked = false :=
  c4_amended_cache_hit id "Hi" c4WitState c4Wenv rfl (by decide) rfl rfl rfl
    (by decide) rfl

theorem c6_assemble (file : List Nat) (start : Nat) (st : PlaySt)
    (hinv : PlayInv file start st.pos st.delivered st.inFlight)
    (hres : st.resume = st.pos) (hif : st.inFlight = []) :
    st.resume = st.pos ∧ st.pos ≤ file.length ∧ st.inFlight = [] ∧
    st.delivered = (file.drop start).take st.delivered.length ∧
    start + st.delivered.length ≤ st.pos ∧
    st.pos ≤ start + st.delivered.length + 1 ∧
    (start + st.delivered.length < st.pos → st.pos = file.length) ∧
    (file.length % 2 = 0 → start % 2 = 0 →
      start + st.delivered.length = st.pos) := by
  obtain ⟨i1, i2, i3, i4, i5, i6, i7, i8⟩ := hinv
  have hD : playCombined st.delivered st.inFlight = st.delivered := by
    rw [hif]
    simp [playCombined]
  rw [hD] at i3 i4 i5 i6
  exact ⟨hres, i2, hif, i6, i3, i4, i5, fun he hs => by omega⟩

/-- C6: whenever `playTtsFromSD` exits by pause drain or natural completion,
the reported resume offset equals the exact file cursor reached and never
exceeds the file size, the hardware queue is drained, and the delivered
bytes are exactly the contiguous slice of the file from the effective start
position up to the cursor — except that the cursor may be one byte past the
delivered bytes when a trailing odd byte was dropped, possible only at end
of file; for a sample-aligned (even-length) file played from a sample-aligned
offset the slice is exact, so bytes [start, resume) were delivered before
the exit and resuming at the reported offset skips or repeats nothing. -/
theorem c6_player_resume_exact (penv : PlayEnv) (file : List Nat)
    (startOffset : Nat) (cb : Nat) (hcb : penv.chunkBytes = some cb)
    (hcb2 : cb % 2 = 0) (hcb1 : 0 < cb) (ex : PlayExit) (st : PlaySt)
    (h : playTtsFromSD penv (some file) startOffset = (ex, st))
    (hex : ex = PlayExit.pausedDrain ∨ ex = PlayExit.natural) :
    st.resume = st.pos ∧ st.pos ≤ file.length ∧ st.inFlight = [] ∧
    st.delivered
        = (file.drop (playStart file startOffset)).take st.delivered.length ∧
    playStart file startOffset + st.delivered.length ≤ st.pos ∧
    st.pos ≤ playStart file startOffset + st.delivered.length + 1 ∧
    (playStart file startOffset + st.delivered.length < st.pos →
      st.pos = file.length) ∧
    (file.length % 2 = 0 → startOffset % 2 = 0 →
      playStart file startOffset + st.delivered.length = st.pos) := by
  simp only [playTtsFromSD] at h
  by_cases hm : penv.mountOk = false
  · rw [if_pos hm] at h
    injection h with h1 h2
    subst h1
    exact absurd hex (by decide)
  · rw [if_neg hm] at h
    by_cases h0 : file.length = 0
    · rw [if_pos h0] at h
      injection h with h1 h2
      subst h1
      exact absurd hex (by decide)
    · rw [if_neg h0] at h
      by_cases hrange : 0 < startOffset ∧ startOffset < file.length
      · rw [if_pos hrange] at h
        have hps : playStart file startOffset = startOffset := by
          unfold playStart
          rw [if_pos hrange]
        by_cases hsk : penv.seekOk = false
        · rw [if_pos hsk] at h
          injection h with h1 h2
          subst h1
          exact absurd hex (by decide)
        · rw [if_neg hsk] at h
          rw [hcb] at h
          have hinv0 : PlayInv file startOffset startOffset ([] : List Nat)
              ([] : List (List Nat)) := by
            refine ⟨le_refl _, by omega, ?_, ?_, ?_, ?_, ?_, ?_⟩ <;>
              simp [playCombined]
          obtain ⟨hinv, hres, hif⟩ :=
            playLoop_exit file cb startOffset hcb2 hcb1 penv.ticks _ hinv0
              ex st h hex
          rw [hps]
          exact c6_assemble file startOffset st hinv hres hif
      · rw [if_neg hrange] at h
        have hps : playStart file startOffset = 0 := by
          unfold playStart
          rw [if_neg hrange]
        by_cases hge : file.length ≤ startOffset
        · rw [if_pos hge] at h
          injection h with h1 h2
          subst h1
          exact absurd hex (by decide)
        · rw [if_neg hge] at h
          rw [hcb] at h
          have hinv0 : PlayInv file 0 0 ([] : List Nat)
              ([] : List (List Nat)) := by
            refine ⟨le_refl _, by omega, ?_, ?_, ?_, ?_, ?_, ?_⟩ <;>
              simp [playCombined]
          obtain ⟨hinv, hres, hif⟩ :=
            playLoop_exit file cb 0 hcb2 hcb1 penv.ticks _ hinv0 ex st h hex
          rw [hps]
          refine ⟨?_, ?_, ?_, ?_, ?_, ?_, ?_, ?_⟩ <;>
            first
            | exact (c6_assemble file 0 st hinv hres hif).1
            | exact (c6_assemble file 0 st hinv hres hif).2.1
            | exact (c6_assemble file 0 st hinv hres hif).2.2.1
            | exact (c6_assemble file 0 st hinv hres hif).2.2.2.1
            | exact (c6_assemble file 0 st hinv hres hif).2.2.2.2.1
            | exact (c6_assemble file 0 st hinv hres hif).2.2.2.2.2.1
            | exact (c6_assemble file 0 st hinv hres hif).2.2.2.2.2.2.1
            | exact fun he _ =>
                (c6_assemble file 0 st hinv hres hif).2.2.2.2.2.2.2 he rfl

/-- C6 witness: a two-byte file played from offset 0 with a 16-KB buffer,
one fill iteration and one reclaim iteration, exits naturally with resume
offset 2 = cursor 2 = file size and both bytes delivered. -/
theorem c6_player_resume_exact_witness :
    (playTtsFromSD c6WitPenv (some [1, 2]) 0).2.resume
        = (playTtsFromSD c6WitPenv (some [1, 2]) 0).2.pos ∧
    (playTtsFromSD c6WitPenv (some [1, 2]) 0).2.pos ≤ 2 ∧
    (playTtsFromSD c6WitPenv (some [1, 2]) 0).2.delivered = [1, 2] := by
  have h := c6_player_resume_exact c6WitPenv [1, 2] 0 16384 rfl (by decide)
    (by decide) PlayExit.natural ⟨2, 2, [], [1, 2], false, true, false⟩
    (by decide) (Or.inr rfl)
  exact ⟨h.1, h.2.1, rfl⟩

end OA
